import Mathlib

/-!
Shallow embedding of the fleet_gateway warehouse orchestrator core:
`RobotHandler`/`RobotConnector` (src/fleet_gateway/robot.py),
`FleetHandler` (src/fleet_gateway/fleet_handler.py),
`WarehouseController` (src/fleet_gateway/warehouse_controller.py),
the serialization helpers (src/fleet_gateway/helpers/serializers.py and
deserializers.py) and the parts of `OrderStore` the controller needs.

Modelling conventions:
* Python UUIDs are modelled as `Nat` identifiers.
* Python float fields (coordinates, cell heights) never enter any
  computation relevant to a claim; they are carried opaquely as `Int`.
* Fallible Python code (raise) is modelled with `Except PyErr`; the
  constructor of `PyErr` names the Python exception class raised.
* Python `None` inside typed containers is modelled with `Option`; in
  particular a robot job queue is a `List (Option Job)` because the
  controller can append `None` to it.
* Transport, route-oracle and store calls are modelled as explicit
  environment functions / state threading.
-/

namespace FleetGateway

/-- Python exception kinds raised by the embedded code. -/
inductive PyErr
  | runtimeError
  | valueError
  | attributeError
  | typeError
  | keyError
  | indexError
  deriving DecidableEq, Repr

/-! ## Enums (src/fleet_gateway/enums.py) -/

/-- NodeType: WAYPOINT=0, CONVEYOR=1, SHELF=2, CELL=3, DEPOT=4. -/
inductive NodeType
  | waypoint
  | conveyor
  | shelf
  | cell
  | depot
  deriving DecidableEq, Repr

/-- JobOperation: TRAVEL=0, PICKUP=1, DELIVERY=2. -/
inductive JobOperation
  | travel
  | pickup
  | delivery
  deriving DecidableEq, Repr

/-- OrderStatus: QUEUING=0, IN_PROGRESS=1, FAILED=2, CANCELED=3, COMPLETED=4. -/
inductive OrderStatus
  | queuing
  | inProgress
  | failed
  | canceled
  | completed
  deriving DecidableEq, Repr

/-- Integer wire code of an `OrderStatus` (`.value` in Python). -/
def OrderStatus.val : OrderStatus → Int
  | .queuing => 0
  | .inProgress => 1
  | .failed => 2
  | .canceled => 3
  | .completed => 4

/-- The terminal set handled by `update_job_status` and `cancel_job_order`:
`(COMPLETED, CANCELED, FAILED)`. -/
def OrderStatus.isTerminal : OrderStatus → Bool
  | .completed => true
  | .canceled => true
  | .failed => true
  | _ => false

/-- Integer wire code of a `JobOperation` (`.value` in Python). -/
def JobOperation.val : JobOperation → Int
  | .travel => 0
  | .pickup => 1
  | .delivery => 2

/-- Integer wire code of a `NodeType` (`.value` in Python). -/
def NodeType.val : NodeType → Int
  | .waypoint => 0
  | .conveyor => 1
  | .shelf => 2
  | .cell => 3
  | .depot => 4

/-- RobotActionStatus: IDLE=0, OPERATING=1, ERROR=2, CANCELED=3, SUCCEEDED=4. -/
inductive RobotActionStatus
  | idle
  | operating
  | error
  | canceled
  | succeeded
  deriving DecidableEq, Repr

/-- RobotConnectionStatus: OFFLINE=0, ONLINE=1. -/
inductive RobotConnectionStatus
  | offline
  | online
  deriving DecidableEq, Repr

/-- RobotCellLevel: UNUSED=-1, CELL_0=0 … CELL_9=9. -/
inductive RobotCellLevel
  | unused
  | cellLevel (i : Fin 10)
  deriving DecidableEq, Repr

/-- `.value` of a `RobotCellLevel` member. -/
def RobotCellLevel.val : RobotCellLevel → Int
  | .unused => -1
  | .cellLevel i => (i : Nat)

/-- `RobotCellLevel(cell_idx)` for a nonnegative index: the enum lookup
succeeds for 0..9 and raises ValueError otherwise. -/
def RobotCellLevel.ofIdx (n : Nat) : Option RobotCellLevel :=
  if h : n < 10 then some (.cellLevel ⟨n, h⟩) else none

/-! ## Data model (src/fleet_gateway/api/types.py) -/

/-- Warehouse path network node (strawberry type `Node`). -/
structure NodeRec where
  id : Int
  alias_ : Option String
  tag_id : Option String
  x : Int
  y : Int
  height : Int
  node_type : NodeType
  deriving DecidableEq, Repr

/-- Robot job (strawberry type `Job`): uuid, status, operation,
target node, optional owning request uuid, handling robot name. -/
structure Job where
  uuid : Nat
  status : OrderStatus
  operation : JobOperation
  target_node : NodeRec
  request_uuid : Option Nat
  handling_robot_name : String
  deriving DecidableEq, Repr

/-- Warehouse request (strawberry type `Request`): uuid, pickup job uuid,
delivery job uuid, handling robot name.  Its status is derived, never
stored. -/
structure Request where
  uuid : Nat
  pickup_uuid : Nat
  delivery_uuid : Nat
  handling_robot_name : String
  deriving DecidableEq, Repr

/-- Robot cell storage slot (strawberry type `RobotCell`): physical height
and the uuid of the job it currently holds, if any. -/
structure RobotCell where
  height : Int
  holding_uuid : Option Nat := none
  deriving DecidableEq, Repr

end FleetGateway

namespace FleetGateway

/-! ## RobotHandler state and operations (src/fleet_gateway/robot.py)

`RobotHandler` extends `RobotConnector`; the union of their mutable fields
relevant to the core FSM is collected in `HandlerState`.  The roslibpy
transport and route oracle are external; the oracle queries made by
`send_job` are supplied through `SendEnv`, and the `job_updater` queue is
modelled by returning the list of jobs pushed on it. -/

/-- External collaborators of `RobotConnector.send_job`: the route oracle
queries it performs.  (`getNodesByIds` only hydrates the goal payload and
has no effect on handler state, so it is not needed here.) -/
structure SendEnv where
  getNodeByTagId : String → Option NodeRec
  getShortestPathById : Int → Int → List Int

/-- Mutable state of one `RobotHandler` (robot.py):
`active_status`, transport connectedness (`is_connected`),
`last_action_status`, `mobile_base_state.tag` (just the qr id),
`cells`, `current_job`, `current_cell` and the FIFO `job_queue`.
Queue entries are `Option Job` because Python callers can append `None`. -/
structure HandlerState where
  active_status : Bool
  connected : Bool
  last_action_status : RobotActionStatus
  tag : Option String
  cells : List RobotCell
  current_job : Option Job
  current_cell : Option RobotCellLevel
  job_queue : List (Option Job)
  deriving DecidableEq, Repr

/-- `RobotConnector.connection_status`: `RobotConnectionStatus(self.is_connected)`. -/
def connection_status (st : HandlerState) : RobotConnectionStatus :=
  if st.connected then .online else .offline

/-- Python list read `cells[i]` with an `Int` index: negative indices count
from the end; out-of-range raises IndexError (modelled as `none`). -/
def pyIndex (i : Int) (n : Nat) : Option Nat :=
  if 0 ≤ i ∧ i < n then some i.toNat
  else if -(n : Int) ≤ i ∧ i < 0 then some (i + n).toNat
  else none

/-- Write `holding_uuid := some u` into the cell at (nonnegative) index `k`. -/
def modifyHolding : List RobotCell → Nat → Nat → List RobotCell
  | [], _, _ => []
  | c :: cs, 0, u => { c with holding_uuid := some u } :: cs
  | c :: cs, k + 1, u => c :: modifyHolding cs k u

/-- `RobotHandler.find_free_cell`: reserve the first cell whose
`holding_uuid is None`; RuntimeError when every cell is occupied; the
`RobotCellLevel(cell_idx)` enum lookup raises ValueError past index 9.
On success `current_cell` is set to the chosen level. -/
def find_free_cell (st : HandlerState) :
    Except PyErr (HandlerState × RobotCellLevel) :=
  match st.cells.findIdx? (fun c => c.holding_uuid.isNone) with
  | none => .error .runtimeError
  | some i =>
    match RobotCellLevel.ofIdx i with
    | none => .error .valueError
    | some lvl => .ok ({ st with current_cell := some lvl }, lvl)

/-- Body of `RobotHandler.update_job_status` up to (and excluding) the
trailing `self.trigger()` of the terminal branch; the returned `Bool`
says whether that terminal branch was taken.  For non-terminal statuses
this *is* the whole method, which lets `send_job` reuse it without
mutual recursion.  Returns the jobs pushed on `job_updater`. -/
def apply_status (st : HandlerState) (status : OrderStatus) :
    Except PyErr (HandlerState × List Job × Bool) :=
  match st.current_job with
  | none => .ok (st, [], false)
  | some cj =>
    let cj' := { cj with status := status }
    let st1 := { st with current_job := some cj' }
    if status.isTerminal then do
      let cells' ←
        if status = .completed ∧ cj'.operation = .pickup then
          match st1.current_cell with
          | some lvl =>
            match pyIndex lvl.val st1.cells.length with
            | some k => Except.ok (modifyHolding st1.cells k cj'.uuid)
            | none => Except.error PyErr.indexError
          | none => Except.ok st1.cells
        else Except.ok st1.cells
      .ok ({ st1 with
             cells := cells', current_cell := none,
             current_job := none }, [cj'], true)
    else .ok (st1, [cj'], false)

/-- `RobotConnector.send_job(job, robot_cell)`: RuntimeError when the last
known tag is unknown, the start node cannot be resolved, or no path is
found; otherwise set `last_action_status = OPERATING` and run
`update_job_status(IN_PROGRESS)` (non-terminal, so no re-trigger), then
hand the goal to the transport.  `robot_cell` only enters the goal
payload. -/
def send_job (env : SendEnv) (st : HandlerState) (job : Job)
    (robot_cell : RobotCellLevel) : Except PyErr (HandlerState × List Job) :=
  match st.tag with
  | none => .error .runtimeError
  | some t =>
    match env.getNodeByTagId t with
    | none => .error .runtimeError
    | some start_node =>
      let path := env.getShortestPathById start_node.id job.target_node.id
      if path = [] then .error .runtimeError
      else do
        let _goal_cell := robot_cell.val
        let st1 := { st with last_action_status := .operating }
        let (st2, pushes, _) ← apply_status st1 .inProgress
        .ok (st2, pushes)

/-- `is_ready_status` of `RobotHandler.trigger`:
membership in (IDLE, CANCELED, SUCCEEDED). -/
def is_ready_status : RobotActionStatus → Bool
  | .idle => true
  | .canceled => true
  | .succeeded => true
  | _ => false

/-- The five-way guard of `RobotHandler.trigger`. -/
def canTrigger (st : HandlerState) : Bool :=
  st.active_status && (connection_status st == .online) &&
    st.current_job.isNone && !st.job_queue.isEmpty &&
    is_ready_status st.last_action_status

/-- Result of one `trigger` call: the new handler state, the arguments of
the `send_job` invocation if one was made, and the jobs pushed on the
`job_updater` queue. -/
structure TrigOut where
  state : HandlerState
  sent : Option (Job × RobotCellLevel)
  pushes : List Job
  deriving DecidableEq, Repr

/-- The `except RuntimeError` handler inside `trigger`: set
`last_action_status = ERROR`, mark the popped job FAILED and push it,
clear `current_cell` and `current_job`. -/
def trigger_fail (st : HandlerState) (j : Job)
    (sent : Option (Job × RobotCellLevel)) : TrigOut :=
  ⟨{ st with
     last_action_status := .error, current_cell := none,
     current_job := none }, sent, [{ j with status := .failed }]⟩

/-- `RobotHandler.trigger`: when the five-way guard holds, pop the queue
head into `current_job`, allocate a cell for PICKUP (else UNUSED) and
call `send_job`; a RuntimeError from either is caught by the failure
path, while ValueError (free cell index past 9) and AttributeError
(a `None` queue head: `None.operation`) escape. -/
def trigger (env : SendEnv) (st : HandlerState) : Except PyErr TrigOut :=
  if canTrigger st then
    match st.job_queue with
    | [] => .ok ⟨st, none, []⟩
    | q0 :: rest =>
      let st1 := { st with current_job := q0, job_queue := rest }
      match q0 with
      | none => .error .attributeError
      | some j =>
        let cellRes : Except PyErr (HandlerState × RobotCellLevel) :=
          if j.operation == .pickup then find_free_cell st1
          else .ok (st1, .unused)
        match cellRes with
        | .error .runtimeError => .ok (trigger_fail st1 j none)
        | .error e => .error e
        | .ok (st2, robot_cell) =>
          match send_job env st2 j robot_cell with
          | .ok (st3, pushes) => .ok ⟨st3, some (j, robot_cell), pushes⟩
          | .error .runtimeError => .ok (trigger_fail st2 j (some (j, robot_cell)))
          | .error e => .error e
  else .ok ⟨st, none, []⟩

/-- Result of `update_job_status`: new state, `send_job` invocation made
by the trailing `trigger` (if any) and all jobs pushed on `job_updater`. -/
structure UpdOut where
  state : HandlerState
  sent : Option (Job × RobotCellLevel)
  pushes : List Job
  deriving DecidableEq, Repr

/-- `RobotHandler.update_job_status(status)`: no-op when `current_job` is
`None`; otherwise set the job status, push the job, and on a terminal
status write the holding cell for a completed PICKUP, clear
`current_cell`/`current_job` and call `trigger`. -/
def update_job_status (env : SendEnv) (st : HandlerState)
    (status : OrderStatus) : Except PyErr UpdOut := do
  let (st1, pushes, wasTerminal) ← apply_status st status
  if wasTerminal then
    let tr ← trigger env st1
    .ok ⟨tr.state, tr.sent, pushes ++ tr.pushes⟩
  else
    .ok ⟨st1, none, pushes⟩

/-- `RobotHandler.assign(job)`: append to the queue, then `trigger`. -/
def assign (env : SendEnv) (st : HandlerState) (job : Option Job) :
    Except PyErr TrigOut :=
  trigger env { st with job_queue := st.job_queue ++ [job] }

/-- `RobotHandler.clear_error()`: from ERROR go to IDLE and `trigger`,
returning True; otherwise change nothing and return False. -/
def clear_error (env : SendEnv) (st : HandlerState) :
    Except PyErr (TrigOut × Bool) :=
  if st.last_action_status == .error then do
    let tr ← trigger env { st with last_action_status := .idle }
    .ok (tr, true)
  else .ok (⟨st, none, []⟩, false)

/-- Terminal result statuses delivered by the transport to `on_result`;
`otherTerminal` stands for the wildcard branch of the `match`. -/
inductive GoalStatus
  | succeeded
  | canceled
  | aborted
  | otherTerminal
  deriving DecidableEq, Repr

/-- The `on_result` callback registered by `send_job` (robot.py lines
113-127): on SUCCEEDED the source sets `last_action_status = IDLE` (not
SUCCEEDED) and completes the job; CANCELED cancels; ABORTED and any
other result give ERROR/FAILED. -/
def on_result (env : SendEnv) (st : HandlerState) (g : GoalStatus) :
    Except PyErr UpdOut :=
  match g with
  | .succeeded =>
    update_job_status env { st with last_action_status := .idle } .completed
  | .canceled =>
    update_job_status env { st with last_action_status := .canceled } .canceled
  | .aborted =>
    update_job_status env { st with last_action_status := .error } .failed
  | .otherTerminal =>
    update_job_status env { st with last_action_status := .error } .failed

/-- The `on_error` callback registered by `send_job`: transport fault
gives ERROR/FAILED. -/
def on_error (env : SendEnv) (st : HandlerState) : Except PyErr UpdOut :=
  update_job_status env { st with last_action_status := .error } .failed

end FleetGateway

namespace FleetGateway

/-! ## Python dict / list primitives -/

/-- Lookup in an insertion-ordered association list (Python dict read):
the value at the first (and, by `alSet`'s construction, only) occurrence
of the key. -/
def alGet {K V : Type} [DecidableEq K] : List (K × V) → K → Option V
  | [], _ => none
  | (k0, v0) :: rest, k => if k0 = k then some v0 else alGet rest k

/-- Python dict write `m[k] = v`: replace the value at an existing key in
place, otherwise append. -/
def alSet {K V : Type} [DecidableEq K] (m : List (K × V)) (k : K) (v : V) :
    List (K × V) :=
  match m with
  | [] => [(k, v)]
  | (k0, v0) :: rest =>
    if k0 = k then (k0, v) :: rest else (k0, v0) :: alSet rest k v

/-- Python dict read `m[k]` raising KeyError when the key is absent. -/
def dictGet {K V : Type} [DecidableEq K] (m : List (K × V)) (k : K) :
    Except PyErr V :=
  match alGet m k with
  | some v => .ok v
  | none => .error .keyError

/-- Python list element read `l[i]` for a nonnegative index
(IndexError when out of range). -/
def pyGet {α : Type} (l : List α) (i : Nat) : Except PyErr α :=
  match l.get? i with
  | some a => .ok a
  | none => .error .indexError

/-- Python list element write `l[i] = a` for a nonnegative index
(IndexError when out of range). -/
def pySetList {α : Type} (l : List α) (i : Nat) (a : α) :
    Except PyErr (List α) :=
  if i < l.length then .ok (l.set i a) else .error .indexError

/-! ## FleetHandler (src/fleet_gateway/fleet_handler.py) -/

/-- The per-name `RobotHandler` dictionary held by `FleetHandler`. -/
structure FleetState where
  handlers : List (String × HandlerState)
  deriving DecidableEq, Repr

/-- `robot_name in self.handlers` / `self.handlers[robot_name]`. -/
def get_handler (f : FleetState) (name : String) : Option HandlerState :=
  alGet f.handlers name

/-- Store back the mutated handler of a robot. -/
def set_handler (f : FleetState) (name : String) (h : HandlerState) :
    FleetState :=
  ⟨alSet f.handlers name h⟩

/-- `FleetHandler.assign_job(robot_name, job)`: no-op for an unknown name,
else `RobotHandler.assign`.  Returns the jobs the handler pushed on the
shared status-update queue. -/
def assign_job (env : SendEnv) (f : FleetState) (robot_name : String)
    (job : Option Job) : Except PyErr (FleetState × List Job) :=
  match get_handler f robot_name with
  | none => .ok (f, [])
  | some h => do
    let tr ← assign env h job
    .ok (set_handler f robot_name tr.state, tr.pushes)

/-- The scan of `FleetHandler.remove_queued_job` over one queue: pop the
first entry whose `uuid` matches; reading `.uuid` of a `None` entry
raises AttributeError. -/
def remove_first_by_uuid :
    List (Option Job) → Nat → Except PyErr (Bool × List (Option Job))
  | [], _ => .ok (false, [])
  | none :: _, _ => .error .attributeError
  | some j :: rest, u =>
    if j.uuid = u then .ok (true, rest)
    else do
      let (b, q) ← remove_first_by_uuid rest u
      .ok (b, some j :: q)

/-- `FleetHandler.remove_queued_job(robot_name, job_uuid)`: False for an
unknown robot; otherwise remove the first waiting job with that uuid
from the robot's queue.  `current_job` is never touched. -/
def remove_queued_job (f : FleetState) (robot_name : String)
    (job_uuid : Nat) : Except PyErr (Bool × FleetState) :=
  match get_handler f robot_name with
  | none => .ok (false, f)
  | some h => do
    let (b, q) ← remove_first_by_uuid h.job_queue job_uuid
    .ok (b, set_handler f robot_name { h with job_queue := q })

/-- `FleetHandler.free_cell(robot_cell)`: `None` for an unknown robot or
an out-of-range index, else clear `cells[cell_index].holding_uuid` and
return the cell. -/
def free_cell (f : FleetState) (robot_name : String) (cell_index : Int) :
    FleetState × Option RobotCell :=
  match get_handler f robot_name with
  | none => (f, none)
  | some h =>
    if cell_index < 0 ∨ (h.cells.length : Int) ≤ cell_index then (f, none)
    else
      match h.cells.get? cell_index.toNat with
      | none => (f, none)
      | some c =>
        let c' := { c with holding_uuid := none }
        (set_handler f robot_name
          { h with cells := h.cells.set cell_index.toNat c' }, some c')

/-! ## OrderStore (spec-modelled)

src/fleet_gateway/order_store.py is an inconsistent draft: it lacks
`set_job`, `set_request` and `get_request_status` entirely (they are
called from warehouse_controller.py, api/types.py and the unit tests),
and its `get_job` constructs `Job` without required fields.  The store
operations the controller and the derived-status claims need are
therefore modelled from the spec (§4.1) here. -/

/-- Modelled from the spec: the authoritative key-value content of the
store — Jobs under `job:{uuid}` keys and Requests under
`request:{uuid}` keys (spec §4.1, §6).  The store transport (Redis) is
out of scope. -/
structure StoreState where
  jobs : List (Nat × Job)
  requests : List (Nat × Request)
  deriving DecidableEq, Repr

/-- Modelled from the spec: `OrderStore.set_job(job) -> bool` — serialize
and upsert under the job's uuid; the transport is assumed healthy, so
the write reports success. -/
def set_job (s : StoreState) (j : Job) : StoreState × Bool :=
  (⟨alSet s.jobs j.uuid j, s.requests⟩, true)

/-- Modelled from the spec: `OrderStore.get_job(uuid)` — the stored Job,
or `None` when the key is absent. -/
def get_job (s : StoreState) (u : Nat) : Option Job :=
  alGet s.jobs u

/-- Modelled from the spec: `OrderStore.set_request(request) -> bool`. -/
def set_request (s : StoreState) (r : Request) : StoreState × Bool :=
  (⟨s.jobs, alSet s.requests r.uuid r⟩, true)

/-- Modelled from the spec: `OrderStore.get_request(uuid)`. -/
def get_request (s : StoreState) (u : Nat) : Option Request :=
  alGet s.requests u

/-- Modelled from the spec: `OrderStore.get_request_status(request)` —
derived, first match wins: either job FAILED → FAILED; either CANCELED
→ CANCELED; both COMPLETED → COMPLETED; either IN_PROGRESS →
IN_PROGRESS; otherwise QUEUING.  When either referenced job is absent
it fails with the InconsistentState error (a RuntimeError, as the unit
tests expect). -/
def get_request_status (s : StoreState) (req : Request) :
    Except PyErr OrderStatus :=
  match get_job s req.pickup_uuid, get_job s req.delivery_uuid with
  | some p, some d =>
    if p.status = .failed ∨ d.status = .failed then .ok .failed
    else if p.status = .canceled ∨ d.status = .canceled then .ok .canceled
    else if p.status = .completed ∧ d.status = .completed then .ok .completed
    else if p.status = .inProgress ∨ d.status = .inProgress then .ok .inProgress
    else .ok .queuing
  | _, _ => .error .runtimeError

end FleetGateway

namespace FleetGateway

/-! ## WarehouseController (src/fleet_gateway/warehouse_controller.py) -/

/-- A route node reference: either a node id or a node alias
(`dict[int, str] | dict[str, str]` keys in the source). -/
inductive NodeKey
  | nid (i : Int)
  | nalias (s : String)
  deriving DecidableEq, Repr

/-- Element of `warehouse_order.request_ids`. -/
structure RequestIDInput where
  pickup_node_id : Int
  delivery_node_id : Int
  deriving DecidableEq, Repr

/-- Element of `warehouse_order.request_aliases`. -/
structure RequestAliasInput where
  pickup_node_alias : String
  delivery_node_alias : String
  deriving DecidableEq, Repr

/-- A robot assignment: name plus a route given either as node ids or as
node aliases (the controller validates that exactly one is provided). -/
structure AssignmentInput where
  robot_name : String
  route_node_ids : Option (List Int)
  route_node_aliases : Option (List String)
  deriving DecidableEq, Repr

/-- The warehouse-order input as the controller reads it. -/
structure WarehouseOrderInput where
  request_ids : Option (List RequestIDInput)
  request_aliases : Option (List RequestAliasInput)
  assignments : List AssignmentInput
  deriving DecidableEq, Repr

/-- `GraphQL WarehouseOrderResult`. -/
structure WarehouseOrderResult where
  success : Bool
  message : String
  requests : List Request
  deriving DecidableEq, Repr

/-- The Python expression `route_node_ids or route_node_aliases` followed
by iteration: an empty (falsy) or absent id list falls through to the
alias list, and iterating `None` raises TypeError. -/
def route_or (ids : Option (List Int)) (aliases : Option (List String)) :
    Except PyErr (List NodeKey) :=
  match ids with
  | some l =>
    if l.isEmpty then
      match aliases with
      | some l2 => .ok (l2.map NodeKey.nalias)
      | none => .error .typeError
    else .ok (l.map NodeKey.nid)
  | none =>
    match aliases with
    | some l2 => .ok (l2.map NodeKey.nalias)
    | none => .error .typeError

/-- The per-assignment loop body of
`WarehouseController.create_node_to_robot_dict`, folded over the
assignment list with the accumulated `node_to_robot` dict.  An unknown
robot, or providing neither or both route forms, raises RuntimeError;
then every node of the route is mapped to the assignment's robot
(overwriting any mapping a previous assignment made for that node). -/
def node_to_robot_aux (f : FleetState) (acc : List (NodeKey × String)) :
    List AssignmentInput → Except PyErr (List (NodeKey × String))
  | [] => .ok acc
  | a :: rest =>
    if (get_handler f a.robot_name).isNone then .error .runtimeError
    else if a.route_node_ids.isNone ∧ a.route_node_aliases.isNone then
      .error .runtimeError
    else if a.route_node_ids.isSome ∧ a.route_node_aliases.isSome then
      .error .runtimeError
    else do
      let keys ← route_or a.route_node_ids a.route_node_aliases
      node_to_robot_aux f
        (keys.foldl (fun m k => alSet m k a.robot_name) acc) rest

/-- `WarehouseController.create_node_to_robot_dict(assignments)`. -/
def create_node_to_robot_dict (f : FleetState)
    (assignments : List AssignmentInput) :
    Except PyErr (List (NodeKey × String)) :=
  node_to_robot_aux f [] assignments

/-- `node_to_idx` built for one assignment by
`create_robot_to_node_incides`: enumerate the route and map each node to
its index (a node repeated inside one route keeps the last index). -/
def idx_map (keys : List NodeKey) : List (NodeKey × Nat) :=
  keys.enum.foldl (fun acc p => alSet acc p.2 p.1) []

/-- `WarehouseController.create_robot_to_node_incides(assignments)`
folded with its accumulator. -/
def robot_to_node_incides_aux (acc : List (String × List (NodeKey × Nat))) :
    List AssignmentInput → Except PyErr (List (String × List (NodeKey × Nat)))
  | [] => .ok acc
  | a :: rest => do
    let keys ← route_or a.route_node_ids a.route_node_aliases
    robot_to_node_incides_aux (alSet acc a.robot_name (idx_map keys)) rest

/-- `WarehouseController.create_robot_to_node_incides(assignments)`. -/
def create_robot_to_node_incides (assignments : List AssignmentInput) :
    Except PyErr (List (String × List (NodeKey × Nat))) :=
  robot_to_node_incides_aux [] assignments

/-- The `robot_job_route` comprehension:
`{ asm.robot_name: [None] * len(asm.route_node_ids or asm.route_node_aliases) }`. -/
def init_job_routes_aux (acc : List (String × List (Option Job))) :
    List AssignmentInput → Except PyErr (List (String × List (Option Job)))
  | [] => .ok acc
  | a :: rest => do
    let keys ← route_or a.route_node_ids a.route_node_aliases
    init_job_routes_aux
      (alSet acc a.robot_name (List.replicate keys.length none)) rest

/-- Pre-allocate `robot_job_route`. -/
def init_job_routes (assignments : List AssignmentInput) :
    Except PyErr (List (String × List (Option Job))) :=
  init_job_routes_aux [] assignments

/-- The list iterated by
`for r in warehouse_order.request_ids or warehouse_order.request_aliases`,
with each element reduced to its (pickup, delivery) node keys as selected
by `use_ids`. -/
def requests_iter (wo : WarehouseOrderInput) :
    Except PyErr (List (NodeKey × NodeKey)) :=
  match wo.request_ids with
  | some l =>
    if l.isEmpty then
      match wo.request_aliases with
      | some l2 =>
        .ok (l2.map fun r =>
          (NodeKey.nalias r.pickup_node_alias, NodeKey.nalias r.delivery_node_alias))
      | none => .error .typeError
    else
      .ok (l.map fun r =>
        (NodeKey.nid r.pickup_node_id, NodeKey.nid r.delivery_node_id))
  | none =>
    match wo.request_aliases with
    | some l2 =>
      .ok (l2.map fun r =>
        (NodeKey.nalias r.pickup_node_alias, NodeKey.nalias r.delivery_node_alias))
    | none => .error .typeError

/-- External collaborators of the controller: the route oracle node
lookup (`get_nodes` applied element-wise; absent nodes yield no row)
and the oracle queries of the robot handlers. -/
structure OracleEnv where
  getNode : NodeKey → Option NodeRec
  sendEnv : SendEnv

/-- Mutable state owned by the controller: the order store, the fleet and
the uuid generator (uuid4 modelled as a counter). -/
structure CtrlState where
  store : StoreState
  fleet : FleetState
  nextUuid : Nat
  deriving DecidableEq, Repr

/-- `WarehouseController.create_request_jobs(pd_nodes, robot_name)`:
draw a request uuid, build and persist the pickup job, the delivery job
and the request (in that order); a failed store write raises
RuntimeError. -/
def create_request_jobs (ctrl : CtrlState) (pd_nodes : List NodeRec)
    (robot_name : String) :
    Except PyErr (CtrlState × Request × Job × Job) := do
  let request_uuid := ctrl.nextUuid
  let n0 ← pyGet pd_nodes 0
  let pickup_job : Job :=
    ⟨ctrl.nextUuid + 1, .queuing, .pickup, n0, some request_uuid, robot_name⟩
  let (store1, ok1) := set_job ctrl.store pickup_job
  if !ok1 then .error .runtimeError else
  let n1 ← pyGet pd_nodes 1
  let delivery_job : Job :=
    ⟨ctrl.nextUuid + 2, .queuing, .delivery, n1, some request_uuid, robot_name⟩
  let (store2, ok2) := set_job store1 delivery_job
  if !ok2 then .error .runtimeError else
  let request : Request :=
    ⟨request_uuid, pickup_job.uuid, delivery_job.uuid, robot_name⟩
  let (store3, ok3) := set_request store2 request
  if !ok3 then .error .runtimeError else
  .ok ({ ctrl with store := store3, nextUuid := ctrl.nextUuid + 3 },
       request, pickup_job, delivery_job)

/-- Outcome of the request-placement loop of `accept_warehouse_order`:
either the early mismatch return, or the final controller state, job
routes and created requests. -/
inductive PlaceRes
  | mismatch (ctrl : CtrlState) (routes : List (String × List (Option Job)))
  | done (ctrl : CtrlState) (routes : List (String × List (Option Job)))
      (reqs : List Request)
  deriving DecidableEq, Repr

/-- The per-request loop of `accept_warehouse_order`: resolve the pickup
and delivery nodes, look up their robots in `node_to_robot` (KeyError
when a node is in no assignment), return the mismatch result when they
differ, otherwise create and persist the request's jobs and place them
in `robot_job_route` at their route indices. -/
def place_requests (genv : OracleEnv) (ctrl : CtrlState)
    (node_to_robot : List (NodeKey × String))
    (indices : List (String × List (NodeKey × Nat)))
    (routes : List (String × List (Option Job))) (accReqs : List Request) :
    List (NodeKey × NodeKey) → Except PyErr PlaceRes
  | [] => .ok (.done ctrl routes accReqs)
  | (pk, dk) :: rest => do
    let nodes := [pk, dk].filterMap genv.getNode
    let rp ← dictGet node_to_robot pk
    let rd ← dictGet node_to_robot dk
    if rp ≠ rd then .ok (.mismatch ctrl routes)
    else do
      let (ctrl1, request, pickup_job, delivery_job) ←
        create_request_jobs ctrl nodes rp
      let idxm ← dictGet indices rp
      let route ← dictGet routes rp
      let pi ← dictGet idxm pk
      let route1 ← pySetList route pi (some pickup_job)
      let di ← dictGet idxm dk
      let route2 ← pySetList route1 di (some delivery_job)
      place_requests genv ctrl1 node_to_robot indices
        (alSet routes rp route2) (accReqs ++ [request]) rest

/-- The inner loop `for job in job_route: fleet_handler.assign_job(robot, job)`
of `accept_warehouse_order`, recording every `assign_job` call made. -/
def assign_slots (env : SendEnv) (fleet : FleetState) (r : String) :
    List (Option Job) →
    Except PyErr (FleetState × List (String × Option Job) × List Job)
  | [] => .ok (fleet, [], [])
  | s :: ss => do
    let (f1, p1) ← assign_job env fleet r s
    let (f2, lg, p2) ← assign_slots env f1 r ss
    .ok (f2, (r, s) :: lg, p1 ++ p2)

/-- The outer loop `for robot, job_route in robot_job_route.items()`. -/
def assign_routes (env : SendEnv) (fleet : FleetState) :
    List (String × List (Option Job)) →
    Except PyErr (FleetState × List (String × Option Job) × List Job)
  | [] => .ok (fleet, [], [])
  | (r, slots) :: rest => do
    let (f1, lg1, p1) ← assign_slots env fleet r slots
    let (f2, lg2, p2) ← assign_routes env f1 rest
    .ok (f2, lg1 ++ lg2, p1 ++ p2)

/-- Everything observable about one `accept_warehouse_order` run: the
GraphQL result, the final controller state, the sequence of
`assign_job(robot, job)` calls made in order, the final
`robot_job_route` and the jobs pushed on the status-update channel. -/
structure WOOut where
  result : WarehouseOrderResult
  ctrl : CtrlState
  assignLog : List (String × Option Job)
  jobRoutes : List (String × List (Option Job))
  pushes : List Job
  deriving DecidableEq, Repr

/-- `WarehouseController.accept_warehouse_order(warehouse_order)`. -/
def accept_warehouse_order (genv : OracleEnv) (ctrl : CtrlState)
    (wo : WarehouseOrderInput) : Except PyErr WOOut :=
  if wo.request_ids.isNone ∧ wo.request_aliases.isNone then
    .ok ⟨⟨false, "Either request_ids or request_aliases must be provided", []⟩,
         ctrl, [], [], []⟩
  else if wo.request_ids.isSome ∧ wo.request_aliases.isSome then
    .ok ⟨⟨false, "Provide either request_ids or request_aliases, not both", []⟩,
         ctrl, [], [], []⟩
  else do
    let node_to_robot ← create_node_to_robot_dict ctrl.fleet wo.assignments
    let indices ← create_robot_to_node_incides wo.assignments
    let routes0 ← init_job_routes wo.assignments
    let reqs ← requests_iter wo
    let pr ← place_requests genv ctrl node_to_robot indices routes0 [] reqs
    match pr with
    | .mismatch ctrl1 routes1 =>
      .ok ⟨⟨false, "Pickup and delivery locations mismatched", []⟩,
           ctrl1, [], routes1, []⟩
    | .done ctrl1 routes1 requests => do
      let (fleet2, lg, pushes) ← assign_routes genv.sendEnv ctrl1.fleet routes1
      .ok ⟨⟨true, "Successfully created " ++ toString requests.length
                    ++ " request(s)", requests⟩,
           { ctrl1 with fleet := fleet2 }, lg, routes1, pushes⟩

/-- `WarehouseController.cancel_job_order(uuid)`: `None` for an unknown
id; a terminal job is returned unchanged with no writes; otherwise the
job is removed from its robot's waiting queue, marked CANCELED,
persisted and returned. -/
def cancel_job_order (ctrl : CtrlState) (uuid : Nat) :
    Except PyErr (CtrlState × Option Job) :=
  match get_job ctrl.store uuid with
  | none => .ok (ctrl, none)
  | some job =>
    if job.status.isTerminal then .ok (ctrl, some job)
    else do
      let (_, fleet1) ← remove_queued_job ctrl.fleet job.handling_robot_name uuid
      let job1 := { job with status := .canceled }
      let (store1, _) := set_job ctrl.store job1
      .ok ({ ctrl with fleet := fleet1, store := store1 }, some job1)

end FleetGateway

namespace FleetGateway

/-! ## Serialization helpers
(src/fleet_gateway/helpers/serializers.py and deserializers.py)

Redis hash values are modelled by `DVal`; the JSON text produced by
`json.dumps(node_to_dict(node))` and parsed back by `json.loads` is
carried structurally as a `NodeDict` (the round trip through JSON text
is the identity on these flat dicts). -/

/-- The dict produced by `node_to_dict`. -/
structure NodeDict where
  id : Int
  alias_ : Option String
  tag_id : Option String
  x : Int
  y : Int
  height : Int
  node_type : Int
  deriving DecidableEq, Repr

/-- A value stored in a serialized record. -/
inductive DVal
  | str (s : String)
  | int (n : Int)
  | jsonNode (n : NodeDict)
  deriving DecidableEq, Repr

/-- `str(uuid)`. -/
def uuidStr (u : Nat) : String := toString u

/-- `node_to_dict(node)`. -/
def node_to_dict (n : NodeRec) : NodeDict :=
  ⟨n.id, n.alias_, n.tag_id, n.x, n.y, n.height, n.node_type.val⟩

/-- `job_to_dict(job)`: status and operation as integer codes, the target
node as JSON text, the owning request uuid or `""`, the robot name. -/
def job_to_dict (j : Job) : List (String × DVal) :=
  [("status", .int j.status.val),
   ("operation", .int j.operation.val),
   ("target_node", .jsonNode (node_to_dict j.target_node)),
   ("request", .str (match j.request_uuid with
                     | some u => uuidStr u
                     | none => "")),
   ("handling_robot", .str j.handling_robot_name)]

/-- `request_to_dict(request)`: the two member-job uuids and the robot
name (the commented-out `uuid` line of the source writes nothing, and no
`status` key is ever written). -/
def request_to_dict (r : Request) : List (String × DVal) :=
  [("pickup", .str (uuidStr r.pickup_uuid)),
   ("delivery", .str (uuidStr r.delivery_uuid)),
   ("handling_robot", .str r.handling_robot_name)]

/-- Dict read `data[k]` (KeyError when absent). -/
def dGet (data : List (String × DVal)) (k : String) : Except PyErr DVal :=
  match alGet data k with
  | some v => .ok v
  | none => .error .keyError

/-- Decimal digit value of a character. -/
def charDigit (c : Char) : Option Nat :=
  if '0' ≤ c ∧ c ≤ '9' then some (c.toNat - '0'.toNat) else none

/-- Accumulating decimal parser over a character list. -/
def parseNatAux : List Char → Nat → Option Nat
  | [], acc => some acc
  | c :: cs, acc =>
    match charDigit c with
    | some d => parseNatAux cs (acc * 10 + d)
    | none => none

/-- Parse a nonempty decimal numeral (`int(s)` / `UUID(s)` success cases). -/
def parseNat (s : String) : Option Nat :=
  if s.data.isEmpty then none else parseNatAux s.data 0

/-- Parse a decimal integer with optional sign. -/
def parseInt (s : String) : Option Int :=
  match s.data with
  | '-' :: rest =>
    if rest.isEmpty then none else (parseNatAux rest 0).map (fun n => -(n : Int))
  | _ => (parseNat s).map Int.ofNat

/-- `int(v)`. -/
def asInt : DVal → Except PyErr Int
  | .int n => .ok n
  | .str s => match parseInt s with
              | some n => .ok n
              | none => .error .valueError
  | .jsonNode _ => .error .typeError

/-- A value used as a plain string field. -/
def asStr : DVal → Except PyErr String
  | .str s => .ok s
  | _ => .error .typeError

/-- `json.loads(v)` where a node dict is expected. -/
def asJsonNode : DVal → Except PyErr NodeDict
  | .jsonNode n => .ok n
  | _ => .error .valueError

/-- `JobOperation(int_code)`: ValueError off the enum. -/
def JobOperation.ofVal (i : Int) : Option JobOperation :=
  if i = 0 then some .travel
  else if i = 1 then some .pickup
  else if i = 2 then some .delivery
  else none

/-- `NodeType(int_code)`: ValueError off the enum. -/
def NodeType.ofVal (i : Int) : Option NodeType :=
  if i = 0 then some .waypoint
  else if i = 1 then some .conveyor
  else if i = 2 then some .shelf
  else if i = 3 then some .cell
  else if i = 4 then some .depot
  else none

/-- `dict_to_node(data)`. -/
def dict_to_node (data : NodeDict) : Except PyErr NodeRec :=
  match NodeType.ofVal data.node_type with
  | none => .error .valueError
  | some nt =>
    .ok ⟨data.id, data.alias_, data.tag_id, data.x, data.y, data.height, nt⟩

/-- `UUID(data['request']) if data.get('request') else None`: an absent or
falsy (empty-string) value gives `None`; a malformed uuid string raises
ValueError. -/
def parse_request_uuid (data : List (String × DVal)) :
    Except PyErr (Option Nat) :=
  match alGet data "request" with
  | none => .ok none
  | some (.str s) =>
    if s = "" then .ok none
    else match parseNat s with
         | some n => .ok (some n)
         | none => .error .valueError
  | some (.int n) => .ok (some n.toNat)
  | some _ => .error .typeError

/-- `dict_to_job(uuid, data)` (helpers/deserializers.py): `None` on an
empty dict, else evaluate the constructor arguments in source order —
operation, target node, request uuid, robot name — and then call
`Job(uuid=…, operation=…, target_node=…, request_uuid=…,
handling_robot_name=…)`.  The keyword-only constructor generated by
`@strawberry.type` for `Job` has a required `status` parameter that this
call never passes, so the call itself raises TypeError.  (The module
also fails at import time: it imports `RequestStatus` from
fleet_gateway.enums, which does not define it.) -/
def dict_to_job (uuid : Nat) (data : List (String × DVal)) :
    Except PyErr (Option Job) :=
  if data.isEmpty then .ok none
  else do
    let _uuid := uuid
    let opv ← dGet data "operation" >>= asInt
    let _operation ← match JobOperation.ofVal opv with
                     | some op => Except.ok op
                     | none => Except.error PyErr.valueError
    let tn ← dGet data "target_node" >>= asJsonNode
    let _target_node ← dict_to_node tn
    let _request_uuid ← parse_request_uuid data
    let _handling_robot ← dGet data "handling_robot" >>= asStr
    .error .typeError

/-- `dict_to_request(uuid, data)` (helpers/deserializers.py): `None` on an
empty dict, else the first evaluated argument is
`RequestStatus(int(data['status']))`, and `request_to_dict` never writes
a `status` key, so the read raises KeyError; were the key present, the
constructor call would still raise TypeError because the strawberry
`Request` type has no `status` parameter. -/
def dict_to_request (uuid : Nat) (data : List (String × DVal)) :
    Except PyErr (Option Request) :=
  if data.isEmpty then .ok none
  else do
    let _uuid := uuid
    let _status ← dGet data "status" >>= asInt
    let _pickup ← dGet data "pickup" >>= asStr
    let _delivery ← dGet data "delivery" >>= asStr
    let _handling_robot ← dGet data "handling_robot" >>= asStr
    .error .typeError

end FleetGateway

namespace FleetGateway

/-! ## Derived predicates used to state the theorems -/

/-- First index of a free cell, as `find_free_cell` scans for it. -/
def firstFreeIdx (cells : List RobotCell) : Option Nat :=
  cells.findIdx? (fun c => c.holding_uuid.isNone)

/-- Whether `send_job` would raise RuntimeError from this state for this
job: unknown tag, unresolvable start node, or empty shortest path. -/
def send_job_raises (env : SendEnv) (st : HandlerState) (j : Job) : Bool :=
  match st.tag with
  | none => true
  | some t =>
    match env.getNodeByTagId t with
    | none => true
    | some start_node =>
      decide (env.getShortestPathById start_node.id j.target_node.id = [])

/-- The queue head is a PICKUP job while every cell is occupied — the
situation in which `trigger` fails before ever calling `send_job`. -/
def head_pickup_blocked (st : HandlerState) : Bool :=
  match st.job_queue with
  | some j :: _ =>
    j.operation == .pickup && (firstFreeIdx st.cells).isNone
  | _ => false

/-- The queue is empty or its head is an actual job (not Python `None`). -/
def headOk (q : List (Option Job)) : Prop :=
  q = [] ∨ ∃ j t, q = some j :: t

/-- The resolved route keys of an assignment (empty when the resolution
itself would raise). -/
def routeKeysD (a : AssignmentInput) : List NodeKey :=
  (route_or a.route_node_ids a.route_node_aliases).toOption.getD []

/-- The robot of the *last* assignment whose route contains the node key
`k` — the value `node_to_robot` actually records for `k`. -/
def lastRobotFor (assignments : List AssignmentInput) (k : NodeKey) :
    Option String :=
  match assignments with
  | [] => none
  | a :: rest =>
    match lastRobotFor rest k with
    | some r => some r
    | none => if k ∈ routeKeysD a then some a.robot_name else none

/-! ## Concrete fixtures for witnesses and counterexamples -/

/-- A waypoint node carrying the tag the test robot sits on. -/
def nodeT1 : NodeRec := ⟨1, none, some "T1", 0, 0, 0, .waypoint⟩

/-- A shelf node used as pickup target. -/
def node7 : NodeRec := ⟨7, some "S7", some "QR7", 2, 3, 1, .shelf⟩

/-- A depot node used as delivery target. -/
def node10 : NodeRec := ⟨10, some "D10", some "QR10", 5, 1, 0, .depot⟩

/-- Route oracle that resolves tag T1 and always finds a path. -/
def envGood : SendEnv :=
  ⟨fun t => if t = "T1" then some nodeT1 else none, fun _ _ => [7]⟩

/-- Route oracle that resolves nothing (dispatch always raises). -/
def envBad : SendEnv := ⟨fun _ => none, fun _ _ => []⟩

/-- A queued pickup job. -/
def jobPick : Job := ⟨101, .queuing, .pickup, node7, some 100, "R1"⟩

/-- A queued delivery job. -/
def jobDel : Job := ⟨102, .queuing, .delivery, node10, some 100, "R1"⟩

/-- A free cell and an occupied cell. -/
def cellFree : RobotCell := ⟨0, none⟩

/-- A cell already holding job 77. -/
def cellHeld : RobotCell := ⟨0, some 77⟩

/-- A ready online handler with one free cell and an empty queue. -/
def stBase : HandlerState :=
  ⟨true, true, .idle, some "T1", [cellFree], none, none, []⟩

/-- Handler currently executing `jobPick` on cell 0. -/
def stOperating : HandlerState :=
  ⟨true, true, .operating, some "T1", [cellFree],
   some { jobPick with status := .inProgress }, some (.cellLevel 0), []⟩

/-- Ready handler whose only cell is occupied and whose queue head is a
pickup job: `trigger`'s guard passes but no cell can be allocated. -/
def stBlocked : HandlerState :=
  { stBase with cells := [cellHeld], job_queue := [some jobPick] }

/-- Offline handler used for the warehouse-order runs (its `trigger`
never fires, so queues keep what `assign` appends). -/
def hOffline : HandlerState :=
  ⟨true, false, .idle, none, [cellFree], none, none, []⟩

/-- Two offline robots. -/
def fleetR12 : FleetState := ⟨[("R1", hOffline), ("R2", hOffline)]⟩

/-- One offline robot. -/
def fleetR1 : FleetState := ⟨[("R1", hOffline)]⟩

/-- Controller collaborators: the oracle resolves nodes 7 and 10. -/
def genvWH : OracleEnv :=
  ⟨fun k => if k = .nid 7 then some node7
            else if k = .nid 10 then some node10 else none,
   envBad⟩

/-- Fresh controller state over a given fleet. -/
def ctrl0 (f : FleetState) : CtrlState := ⟨⟨[], []⟩, f, 0⟩

/-- Warehouse order in which node 7 appears in the routes of two
different assignments (R1's route and R2's route). -/
def woDup : WarehouseOrderInput :=
  ⟨some [⟨7, 10⟩], none,
   [⟨"R1", some [7], none⟩, ⟨"R2", some [7, 10], none⟩]⟩

/-- Warehouse order with one robot whose route has two slots (5 and 12)
that no request claims. -/
def woSkip : WarehouseOrderInput :=
  ⟨some [⟨7, 10⟩], none, [⟨"R1", some [5, 7, 10, 12], none⟩]⟩

/-- A stored queuing job sitting in R1's waiting queue, for the
cancellation scenario. -/
def jobQ : Job := ⟨50, .queuing, .pickup, node7, none, "R1"⟩

/-- Fleet whose robot R1 has `jobQ` waiting and an unrelated current job. -/
def fleetC8 : FleetState :=
  ⟨[("R1", { hOffline with
             job_queue := [some jobQ],
             current_job := some jobDel })]⟩

/-- Controller state holding `jobQ` in the store and `fleetC8`. -/
def ctrlC8 : CtrlState := ⟨⟨[(50, jobQ)], []⟩, fleetC8, 60⟩

/-- Store with a completed pickup (uuid 1) and completed delivery
(uuid 2), for the derived-status witness. -/
def storeC3 : StoreState :=
  ⟨[(1, { jobPick with uuid := 1, status := .completed }),
    (2, { jobDel with uuid := 2, status := .completed })], []⟩

/-- The request over jobs 1 and 2. -/
def reqC3 : Request := ⟨9, 1, 2, "R1"⟩

/-- Decidable equality of `Except` results, so that concrete runs can be
checked by `decide`. -/
instance {e a : Type} [DecidableEq e] [DecidableEq a] :
    DecidableEq (Except e a) :=
  fun x y =>
    match x, y with
    | .ok u, .ok v => decidable_of_iff (u = v) (by simp)
    | .ok _, .error _ => isFalse (by simp)
    | .error _, .ok _ => isFalse (by simp)
    | .error u, .error v => decidable_of_iff (u = v) (by simp)

end FleetGateway

namespace FleetGateway

/-! ## General lemmas about the dict primitives -/

theorem alGet_alSet {K V : Type} [DecidableEq K] (m : List (K × V))
    (k k' : K) (v : V) :
    alGet (alSet m k v) k' = if k' = k then some v else alGet m k' := by
  induction m with
  | nil =>
    by_cases h : k' = k
    · subst h; simp [alSet, alGet]
    · simp [alSet, alGet, h, Ne.symm h]
  | cons p rest ih =>
    obtain ⟨k0, v0⟩ := p
    by_cases h0 : k0 = k
    · subst h0
      by_cases h1 : k0 = k'
      · subst h1; simp [alSet, alGet]
      · have h1' : ¬k' = k0 := fun hh => h1 hh.symm
        simp [alSet, alGet, h1, h1']
    · by_cases h1 : k0 = k'
      · subst h1
        simp [alSet, alGet, h0, ih]
      · have h1' : ¬k' = k0 := fun hh => h1 hh.symm
        simp [alSet, alGet, h0, h1, h1', ih]

/-! ## Claim C10 -/

/-- C10: `RobotHandler.update_job_status(status)` is a no-op when
`current_job` is empty — no handler field changes, nothing is pushed on
the status-update channel, and no dispatch happens. -/
theorem update_job_status_noop_when_no_current_job (env : SendEnv)
    (st : HandlerState) (status : OrderStatus)
    (h : st.current_job = none) :
    update_job_status env st status = .ok ⟨st, none, []⟩ := by
  simp only [update_job_status, apply_status, h]
  rfl

/-- C10 witness: a concrete handler with no current job is untouched by a
COMPLETED callback. -/
theorem update_job_status_noop_when_no_current_job_witness :
    update_job_status envBad stBase .completed = .ok ⟨stBase, none, []⟩ :=
  update_job_status_noop_when_no_current_job envBad stBase .completed rfl

/-! ## Claim C1 -/

/-- C1: the terminal-callback table of robot.py evaluated on a concrete
in-flight pickup.  The spec table demands `(SUCCEEDED, COMPLETED)` on a
SUCCEEDED result, but `on_result` sets `last_action_status = IDLE` there
(robot.py line 117), diverging from the spec and from the repo's own
test docstring; the remaining rows (CANCELED → (CANCELED, CANCELED),
ABORTED/other → (ERROR, FAILED), transport error → (ERROR, FAILED))
match the table. -/
theorem on_result_succeeded_sets_idle_not_succeeded :
    ((on_result envGood stOperating .succeeded).toOption.map
      (fun o => (o.state.last_action_status, o.pushes.map Job.status))
        = some (.idle, [.completed]))
    ∧ RobotActionStatus.idle ≠ RobotActionStatus.succeeded
    ∧ ((on_result envGood stOperating .canceled).toOption.map
        (fun o => (o.state.last_action_status, o.pushes.map Job.status))
        = some (.canceled, [.canceled]))
    ∧ ((on_result envGood stOperating .aborted).toOption.map
        (fun o => (o.state.last_action_status, o.pushes.map Job.status))
        = some (.error, [.failed]))
    ∧ ((on_result envGood stOperating .otherTerminal).toOption.map
        (fun o => (o.state.last_action_status, o.pushes.map Job.status))
        = some (.error, [.failed]))
    ∧ ((on_error envGood stOperating).toOption.map
        (fun o => (o.state.last_action_status, o.pushes.map Job.status))
        = some (.error, [.failed])) := by
  exact ⟨rfl, by decide, rfl, rfl, rfl, rfl⟩

/-! ## Claim C4 -/

/-- C4: the round trips crash instead of restoring the records.
`dict_to_job(job_to_dict(j))` raises TypeError — the keyword-only `Job`
constructor requires `status` and the call never passes it — and
`dict_to_request(request_to_dict(r))` raises KeyError on the `status`
key that `request_to_dict` never writes.  This contradicts the spec's
round-trip law and the repo's own tests (test_order_store.py). -/
theorem serialization_round_trip_crashes :
    dict_to_job jobPick.uuid (job_to_dict jobPick) = .error .typeError
    ∧ dict_to_request 5 (request_to_dict ⟨5, 1, 2, "R1"⟩)
        = .error .keyError := by
  exact ⟨by decide, by decide⟩

/-! ## Claim C3 -/

/-- C3: for a request whose two jobs are both present,
`get_request_status` follows the first-match-wins table — either FAILED
→ FAILED; else either CANCELED → CANCELED; both COMPLETED → COMPLETED;
else either IN_PROGRESS → IN_PROGRESS; otherwise QUEUING; in particular
pickup FAILED with delivery CANCELED gives FAILED — and fails with the
InconsistentState error when either referenced job is absent. -/
theorem get_request_status_follows_table (s : StoreState) (req : Request)
    (p d : Job) (hp : get_job s req.pickup_uuid = some p)
    (hd : get_job s req.delivery_uuid = some d) :
    ((p.status = .failed ∨ d.status = .failed) →
        get_request_status s req = .ok .failed)
    ∧ (p.status ≠ .failed → d.status ≠ .failed →
        (p.status = .canceled ∨ d.status = .canceled) →
        get_request_status s req = .ok .canceled)
    ∧ (p.status = .completed → d.status = .completed →
        get_request_status s req = .ok .completed)
    ∧ (p.status ≠ .failed → d.status ≠ .failed →
        p.status ≠ .canceled → d.status ≠ .canceled →
        (p.status = .inProgress ∨ d.status = .inProgress) →
        get_request_status s req = .ok .inProgress)
    ∧ (p.status ≠ .failed → d.status ≠ .failed →
        p.status ≠ .canceled → d.status ≠ .canceled →
        ¬(p.status = .completed ∧ d.status = .completed) →
        p.status ≠ .inProgress → d.status ≠ .inProgress →
        get_request_status s req = .ok .queuing)
    ∧ (p.status = .failed → d.status = .canceled →
        get_request_status s req = .ok .failed)
    ∧ (∀ s' req', (get_job s' req'.pickup_uuid = none
          ∨ get_job s' req'.delivery_uuid = none) →
        get_request_status s' req' = .error .runtimeError) := by
  refine ⟨?_, ?_, ?_, ?_, ?_, ?_, ?_⟩
  · intro h
    rcases p with ⟨pu, ps, po, pn, pr, ph⟩
    rcases d with ⟨du, ds, dop, dn, dr, dh⟩
    cases ps <;> cases ds <;> simp_all [get_request_status]
  · intro h1 h2 h3
    rcases p with ⟨pu, ps, po, pn, pr, ph⟩
    rcases d with ⟨du, ds, dop, dn, dr, dh⟩
    cases ps <;> cases ds <;> simp_all [get_request_status]
  · intro h1 h2
    rcases p with ⟨pu, ps, po, pn, pr, ph⟩
    rcases d with ⟨du, ds, dop, dn, dr, dh⟩
    cases ps <;> cases ds <;> simp_all [get_request_status]
  · intro h1 h2 h3 h4 h5
    rcases p with ⟨pu, ps, po, pn, pr, ph⟩
    rcases d with ⟨du, ds, dop, dn, dr, dh⟩
    cases ps <;> cases ds <;> simp_all [get_request_status]
  · intro h1 h2 h3 h4 h5 h6 h7
    rcases p with ⟨pu, ps, po, pn, pr, ph⟩
    rcases d with ⟨du, ds, dop, dn, dr, dh⟩
    cases ps <;> cases ds <;> simp_all [get_request_status]
  · intro h1 h2
    rcases p with ⟨pu, ps, po, pn, pr, ph⟩
    rcases d with ⟨du, ds, dop, dn, dr, dh⟩
    cases ps <;> cases ds <;> simp_all [get_request_status]
  · intro s' req' h
    rcases h with h | h
    · simp [get_request_status, h]
    · cases hpk : get_job s' req'.pickup_uuid <;>
        simp [get_request_status, h, hpk]

/-- C3 witness: both stored jobs of `reqC3` are COMPLETED and the derived
status is COMPLETED. -/
theorem get_request_status_follows_table_witness :
    get_request_status storeC3 reqC3 = .ok .completed := by
  have h := get_request_status_follows_table storeC3 reqC3
    { jobPick with uuid := 1, status := .completed }
    { jobDel with uuid := 2, status := .completed } rfl rfl
  exact h.2.2.1 rfl rfl

end FleetGateway

namespace FleetGateway

/-! ## Lemmas about the handler operations -/

theorem findIdx?_spec {α : Type} (p : α → Bool) (l : List α) (i : Nat)
    (h : l.findIdx? p = some i) :
    i < l.length ∧ (∃ a, l.get? i = some a ∧ p a = true)
      ∧ ∀ k a, k < i → l.get? k = some a → p a = false := by
  induction l generalizing i with
  | nil => simp [List.findIdx?] at h
  | cons x xs ih =>
    rw [List.findIdx?_cons] at h
    by_cases hx : p x = true
    · simp [hx] at h
      subst h
      exact ⟨Nat.succ_pos _, ⟨x, rfl, hx⟩, fun k a hk => absurd hk (Nat.not_lt_zero k)⟩
    · simp [hx] at h
      obtain ⟨j, hj, hji⟩ := h
      subst hji
      obtain ⟨h1, ⟨a, ha, hpa⟩, h3⟩ := ih j hj
      refine ⟨Nat.succ_lt_succ h1, ⟨a, ha, hpa⟩, ?_⟩
      intro k b hk hb
      cases k with
      | zero =>
        simp at hb
        subst hb
        simpa using hx
      | succ k' =>
        exact h3 k' b (Nat.lt_of_succ_lt_succ hk) hb

theorem find_free_cell_eq (st : HandlerState) :
    find_free_cell st =
      match firstFreeIdx st.cells with
      | none => .error .runtimeError
      | some i =>
        match RobotCellLevel.ofIdx i with
        | none => .error .valueError
        | some lvl => .ok ({ st with current_cell := some lvl }, lvl) := rfl

theorem apply_status_inProgress (st : HandlerState) :
    apply_status st .inProgress =
      match st.current_job with
      | none => .ok (st, [], false)
      | some cj =>
        .ok ({ st with current_job := some { cj with status := .inProgress } },
             [{ cj with status := .inProgress }], false) := by
  cases h : st.current_job <;> simp [apply_status, h, OrderStatus.isTerminal]

theorem send_job_eq (env : SendEnv) (st : HandlerState) (j : Job)
    (cell : RobotCellLevel) :
    send_job env st j cell =
      if send_job_raises env st j = true then .error .runtimeError
      else
        match st.current_job with
        | none => .ok ({ st with last_action_status := .operating }, [])
        | some cj =>
          .ok ({ st with
                 last_action_status := .operating,
                 current_job := some { cj with status := .inProgress } },
               [{ cj with status := .inProgress }]) := by
  cases ht : st.tag with
  | none => simp [send_job, send_job_raises, ht]
  | some t =>
    cases hn : env.getNodeByTagId t with
    | none => simp [send_job, send_job_raises, ht, hn]
    | some start_node =>
      by_cases hp : env.getShortestPathById start_node.id j.target_node.id = []
      · simp [send_job, send_job_raises, ht, hn, hp]
      · cases hc : st.current_job with
        | none =>
          simp [send_job, send_job_raises, ht, hn, hp, apply_status, hc]
          rfl
        | some cj =>
          simp [send_job, send_job_raises, ht, hn, hp, apply_status, hc,
                OrderStatus.isTerminal]
          rfl

end FleetGateway

namespace FleetGateway

/-- One `trigger` call characterized completely, under the two sanity
bounds (queue head not Python `None`, at most 10 cells) that keep the
uncatchable AttributeError / ValueError paths out of reach. -/
theorem trigger_run (env : SendEnv) (st : HandlerState)
    (hq : headOk st.job_queue) (h10 : st.cells.length ≤ 10) :
    ∃ out, trigger env st = .ok out
      ∧ out.state.cells = st.cells
      ∧ out.sent.isSome = (canTrigger st && !head_pickup_blocked st)
      ∧ (∀ j t, st.job_queue = some j :: t → ∀ p, out.sent = some p → p.1 = j)
      ∧ (canTrigger st = false → out = ⟨st, none, []⟩)
      ∧ (∀ j t, st.job_queue = some j :: t → canTrigger st = true →
          (((j.operation = .pickup ∧ firstFreeIdx st.cells = none)
            ∨ ((j.operation ≠ .pickup ∨ firstFreeIdx st.cells ≠ none)
                ∧ send_job_raises env st j = true)) →
            out.state.last_action_status = .error
            ∧ out.pushes = [{ j with status := .failed }]
            ∧ out.state.current_job = none
            ∧ out.state.current_cell = none)
          ∧ (∀ i lvl, j.operation = .pickup → firstFreeIdx st.cells = some i →
              RobotCellLevel.ofIdx i = some lvl →
              out.sent = some (j, lvl)
              ∧ (send_job_raises env st j = false →
                  out.state.current_cell = some lvl
                  ∧ out.state.current_job = some { j with status := .inProgress }
                  ∧ out.state.last_action_status = .operating
                  ∧ out.state.job_queue = t
                  ∧ out.pushes = [{ j with status := .inProgress }]))
          ∧ (j.operation ≠ .pickup → send_job_raises env st j = false →
              out.sent = some (j, .unused)
              ∧ out.state.current_cell = st.current_cell
              ∧ out.state.current_job = some { j with status := .inProgress }
              ∧ out.state.last_action_status = .operating
              ∧ out.state.job_queue = t
              ∧ out.pushes = [{ j with status := .inProgress }])) := by
  cases hc : canTrigger st with
  | false =>
    refine ⟨⟨st, none, []⟩, by simp [trigger, hc], rfl, by simp [hc], ?_,
      fun _ => rfl, ?_⟩
    · intro j t hqe p hp
      exact Option.noConfusion hp
    · intro j t hqe hct
      exact Bool.noConfusion hct
  | true =>
    have hqe : ∃ j t, st.job_queue = some j :: t := by
      rcases hq with h | h
      · exfalso; simp [canTrigger, h] at hc
      · exact h
    obtain ⟨j, t, hqe⟩ := hqe
    by_cases hop : j.operation = .pickup
    · cases hff : firstFreeIdx st.cells with
      | none =>
        refine ⟨trigger_fail { st with current_job := some j, job_queue := t } j none,
          ?_, rfl, ?_, ?_, fun h => Bool.noConfusion h, ?_⟩
        · have hffc : find_free_cell { st with current_job := some j, job_queue := t }
              = .error .runtimeError := by
            rw [find_free_cell_eq]
            have h1 : firstFreeIdx
                ({ st with current_job := some j, job_queue := t }).cells = none := hff
            rw [h1]
          simp only [trigger, hc, hqe]
          simp [hop, hffc]
        · simp [trigger_fail, head_pickup_blocked, hqe, hop, hff]
        · intro j' t' hqe' p hp
          exact Option.noConfusion hp
        · intro j' t' hqe' hct
          rw [hqe] at hqe'
          injection hqe' with h1 h2
          injection h1 with h1
          subst h1
          subst h2
          refine ⟨fun _ => ⟨rfl, rfl, rfl, rfl⟩, ?_, ?_⟩
          · intro i lvl _ hffi
            exact Option.noConfusion hffi
          · intro hop'
            exact absurd hop hop'
      | some i =>
        have hi10 : i < 10 := by
          have := (findIdx?_spec _ _ _ hff).1
          omega
        have hofi : RobotCellLevel.ofIdx i = some (.cellLevel ⟨i, hi10⟩) := by
          simp [RobotCellLevel.ofIdx, hi10]
        have hffc : find_free_cell { st with current_job := some j, job_queue := t }
            = .ok ({ st with
                     current_job := some j, job_queue := t,
                     current_cell := some (.cellLevel ⟨i, hi10⟩) },
                   .cellLevel ⟨i, hi10⟩) := by
          rw [find_free_cell_eq]
          have h1 : firstFreeIdx
              ({ st with current_job := some j, job_queue := t }).cells = some i := hff
          rw [h1]
          simp [hofi]
        cases hrs : send_job_raises env st j with
        | true =>
          refine ⟨trigger_fail
              { st with
                current_job := some j, job_queue := t,
                current_cell := some (.cellLevel ⟨i, hi10⟩) } j
              (some (j, .cellLevel ⟨i, hi10⟩)),
            ?_, rfl, ?_, ?_, fun h => Bool.noConfusion h, ?_⟩
          · have hrs2 : send_job_raises env
                { st with
                  current_job := some j, job_queue := t,
                  current_cell := some (.cellLevel ⟨i, hi10⟩) } j = true := hrs
            simp only [trigger, hc, hqe]
            simp [hop, hffc, send_job_eq, hrs2]
          · simp [trigger_fail, head_pickup_blocked, hqe, hop, hff]
          · intro j' t' hqe' p hp
            rw [hqe] at hqe'
            injection hqe' with h1 h2
            injection h1 with h1
            injection hp with hp
            subst hp
            exact h1
          · intro j' t' hqe' hct
            rw [hqe] at hqe'
            injection hqe' with h1 h2
            injection h1 with h1
            subst h1
            subst h2
            refine ⟨fun _ => ⟨rfl, rfl, rfl, rfl⟩, ?_, ?_⟩
            · intro i' lvl _ hffi hofi'
              injection hffi with hffi
              subst hffi
              rw [hofi] at hofi'
              injection hofi' with hofi'
              subst hofi'
              refine ⟨rfl, fun hrs' => ?_⟩
              rw [hrs] at hrs'
              exact Bool.noConfusion hrs'
            · intro hop'
              exact absurd hop hop'
        | false =>
          refine ⟨⟨{ st with
                     current_job := some { j with status := .inProgress },
                     job_queue := t,
                     current_cell := some (.cellLevel ⟨i, hi10⟩),
                     last_action_status := .operating },
              some (j, .cellLevel ⟨i, hi10⟩), [{ j with status := .inProgress }]⟩,
            ?_, rfl, ?_, ?_, fun h => Bool.noConfusion h, ?_⟩
          · have hrs2 : send_job_raises env
                { st with
                  current_job := some j, job_queue := t,
                  current_cell := some (.cellLevel ⟨i, hi10⟩) } j = false := hrs
            simp only [trigger, hc, hqe]
            simp [hop, hffc, send_job_eq, hrs2]
          · simp [head_pickup_blocked, hqe, hop, hff]
          · intro j' t' hqe' p hp
            rw [hqe] at hqe'
            injection hqe' with h1 h2
            injection h1 with h1
            injection hp with hp
            subst hp
            exact h1
          · intro j' t' hqe' hct
            rw [hqe] at hqe'
            injection hqe' with h1 h2
            injection h1 with h1
            subst h1
            subst h2
            refine ⟨?_, ?_, ?_⟩
            · intro hbad
              rcases hbad with ⟨_, hffn⟩ | ⟨_, hrs'⟩
              · exact Option.noConfusion hffn
              · rw [hrs] at hrs'
                exact Bool.noConfusion hrs'
            · intro i' lvl _ hffi hofi'
              injection hffi with hffi
              subst hffi
              rw [hofi] at hofi'
              injection hofi' with hofi'
              subst hofi'
              exact ⟨rfl, fun _ => ⟨rfl, rfl, rfl, rfl, rfl⟩⟩
            · intro hop'
              exact absurd hop hop'
    · cases hrs : send_job_raises env st j with
      | true =>
        refine ⟨trigger_fail { st with current_job := some j, job_queue := t } j
            (some (j, .unused)),
          ?_, rfl, ?_, ?_, fun h => Bool.noConfusion h, ?_⟩
        · have hrs2 : send_job_raises env
              { st with current_job := some j, job_queue := t } j = true := hrs
          simp only [trigger, hc, hqe]
          simp [hop, send_job_eq, hrs2]
        · simp [trigger_fail, head_pickup_blocked, hqe, hop]
        · intro j' t' hqe' p hp
          rw [hqe] at hqe'
          injection hqe' with h1 h2
          injection h1 with h1
          injection hp with hp
          subst hp
          exact h1
        · intro j' t' hqe' hct
          rw [hqe] at hqe'
          injection hqe' with h1 h2
          injection h1 with h1
          subst h1
          subst h2
          refine ⟨fun _ => ⟨rfl, rfl, rfl, rfl⟩, ?_, ?_⟩
          · intro i' lvl hop' _ _
            exact absurd hop' hop
          · intro _ hrs'
            rw [hrs] at hrs'
            exact Bool.noConfusion hrs'
      | false =>
        refine ⟨⟨{ st with
                   current_job := some { j with status := .inProgress },
                   job_queue := t,
                   last_action_status := .operating },
            some (j, .unused), [{ j with status := .inProgress }]⟩,
          ?_, rfl, ?_, ?_, fun h => Bool.noConfusion h, ?_⟩
        · have hrs2 : send_job_raises env
              { st with current_job := some j, job_queue := t } j = false := hrs
          simp only [trigger, hc, hqe]
          simp [hop, send_job_eq, hrs2]
        · simp [head_pickup_blocked, hqe, hop]
        · intro j' t' hqe' p hp
          rw [hqe] at hqe'
          injection hqe' with h1 h2
          injection h1 with h1
          injection hp with hp
          subst hp
          exact h1
        · intro j' t' hqe' hct
          rw [hqe] at hqe'
          injection hqe' with h1 h2
          injection h1 with h1
          subst h1
          subst h2
          refine ⟨?_, ?_, ?_⟩
          · intro hbad
            rcases hbad with ⟨hop', _⟩ | ⟨_, hrs'⟩
            · exact absurd hop' hop
            · rw [hrs] at hrs'
              exact Bool.noConfusion hrs'
          · intro i' lvl hop' _ _
            exact absurd hop' hop
          · intro _ _
            exact ⟨rfl, rfl, rfl, rfl, rfl, rfl⟩

end FleetGateway

namespace FleetGateway

/-! ## Claim C2 -/

/-- C2 (amended): `trigger` pops the queue head and attempts dispatch iff
the five conditions of `canTrigger` hold, and `send_job` is actually
called iff additionally the head is not a PICKUP whose robot has every
cell occupied; any `send_job` call receives the popped head; when any of
the five conditions fails, `trigger` changes nothing, so repeated calls
without an intervening state change have identical (no) effects. -/
theorem trigger_calls_send_job_iff (env : SendEnv) (st : HandlerState)
    (hq : headOk st.job_queue) (h10 : st.cells.length ≤ 10) :
    ∃ out, trigger env st = .ok out
      ∧ out.sent.isSome = (canTrigger st && !head_pickup_blocked st)
      ∧ (∀ j t, st.job_queue = some j :: t → ∀ p, out.sent = some p → p.1 = j)
      ∧ (canTrigger st = false → out = ⟨st, none, []⟩) := by
  obtain ⟨out, h1, _, h3, h4, h5, _⟩ := trigger_run env st hq h10
  exact ⟨out, h1, h3, h4, h5⟩

/-- C2 counterexample: on `stBlocked` all five admission conditions hold,
yet `trigger` never calls `send_job` (the queue head is a PICKUP and
every cell is occupied, so `find_free_cell` raises first): the claimed
"if and only if" fails in the forward direction. -/
theorem trigger_five_conditions_do_not_imply_send :
    stBlocked.active_status = true
    ∧ connection_status stBlocked = .online
    ∧ stBlocked.current_job = none
    ∧ stBlocked.job_queue ≠ []
    ∧ is_ready_status stBlocked.last_action_status = true
    ∧ canTrigger stBlocked = true
    ∧ (trigger envGood stBlocked).toOption.map (fun o => o.sent) = some none := by
  decide

/-- C2 witness: a ready handler with a free cell and a queued pickup job
does call `send_job` on the queue head. -/
theorem trigger_calls_send_job_iff_witness :
    ∃ out, trigger envGood { stBase with job_queue := [some jobPick] } = .ok out
      ∧ out.sent.isSome
          = (canTrigger { stBase with job_queue := [some jobPick] }
              && !head_pickup_blocked { stBase with job_queue := [some jobPick] })
      ∧ (∀ j t,
          ({ stBase with job_queue := [some jobPick] } : HandlerState).job_queue
            = some j :: t → ∀ p, out.sent = some p → p.1 = j)
      ∧ (canTrigger { stBase with job_queue := [some jobPick] } = false →
          out = ⟨{ stBase with job_queue := [some jobPick] }, none, []⟩) :=
  trigger_calls_send_job_iff envGood { stBase with job_queue := [some jobPick] }
    (Or.inr ⟨jobPick, [], rfl⟩) (by decide)

end FleetGateway

namespace FleetGateway

/-! ## Claim C7 -/

/-- C7: when `trigger` promotes a PICKUP job it selects the first cell in
index order whose holding is empty (recording it in `current_cell` for
the dispatched job); if no cell is free, or `send_job` raises (unknown
start tag, no path), then `action_status` becomes ERROR, the promoted
job is pushed on the status-update channel with status FAILED, and
`current_job` and `current_cell` are cleared; in every case the cells
array itself is unchanged. -/
theorem trigger_pickup_allocates_first_free_cell (env : SendEnv)
    (st : HandlerState) (j : Job) (t : List (Option Job))
    (hqe : st.job_queue = some j :: t) (hop : j.operation = .pickup)
    (hc : canTrigger st = true) (h10 : st.cells.length ≤ 10) :
    ∃ out, trigger env st = .ok out
      ∧ out.state.cells = st.cells
      ∧ (firstFreeIdx st.cells = none →
          out.sent = none
          ∧ out.state.last_action_status = .error
          ∧ out.pushes = [{ j with status := .failed }]
          ∧ out.state.current_job = none
          ∧ out.state.current_cell = none)
      ∧ (∀ i, firstFreeIdx st.cells = some i →
          (∃ c, st.cells.get? i = some c ∧ c.holding_uuid = none)
          ∧ (∀ k c, k < i → st.cells.get? k = some c → c.holding_uuid ≠ none)
          ∧ ∃ lvl, RobotCellLevel.ofIdx i = some lvl
              ∧ out.sent = some (j, lvl)
              ∧ (send_job_raises env st j = true →
                  out.state.last_action_status = .error
                  ∧ out.pushes = [{ j with status := .failed }]
                  ∧ out.state.current_job = none
                  ∧ out.state.current_cell = none)
              ∧ (send_job_raises env st j = false →
                  out.state.current_cell = some lvl
                  ∧ out.state.current_job = some { j with status := .inProgress }
                  ∧ out.state.last_action_status = .operating)) := by
  obtain ⟨out, h1, h2, h3, h4, h5, h6⟩ := trigger_run env st
    (Or.inr ⟨j, t, hqe⟩) h10
  obtain ⟨herr, hsucc, _⟩ := h6 j t hqe hc
  refine ⟨out, h1, h2, ?_, ?_⟩
  · intro hff
    have hblk : head_pickup_blocked st = true := by
      simp [head_pickup_blocked, hqe, hop, hff]
    have hsent : out.sent = none := by
      cases hs : out.sent with
      | none => rfl
      | some p =>
        rw [hs] at h3
        rw [hc, hblk] at h3
        simp at h3
    obtain ⟨e1, e2, e3, e4⟩ := herr (Or.inl ⟨hop, hff⟩)
    exact ⟨hsent, e1, e2, e3, e4⟩
  · intro i hff
    obtain ⟨hlt, ⟨c, hgc, hpc⟩, hbefore⟩ := findIdx?_spec _ _ _ hff
    have hi10 : i < 10 := by omega
    have hofi : RobotCellLevel.ofIdx i = some (.cellLevel ⟨i, hi10⟩) := by
      simp [RobotCellLevel.ofIdx, hi10]
    refine ⟨⟨c, hgc, by simpa using hpc⟩, ?_, .cellLevel ⟨i, hi10⟩, hofi, ?_, ?_, ?_⟩
    · intro k c' hk hgc' hnone
      have hfalse := hbefore k c' hk hgc'
      rw [hnone] at hfalse
      simp at hfalse
    · exact (hsucc i (.cellLevel ⟨i, hi10⟩) hop hff hofi).1
    · intro hrs
      exact herr (Or.inr ⟨Or.inr (by rw [hff]; simp), hrs⟩)
    · intro hrs
      obtain ⟨s1, s2, s3, _, _⟩ := (hsucc i (.cellLevel ⟨i, hi10⟩) hop hff hofi).2 hrs
      exact ⟨s1, s2, s3⟩

/-- C7 witness: promoting the queued pickup on a one-free-cell handler
whose oracle resolves nothing — cell 0 is selected, dispatch raises, the
job fails, and the cells array is untouched. -/
theorem trigger_pickup_allocates_first_free_cell_witness :
    ∃ out, trigger envBad { stBase with job_queue := [some jobPick] } = .ok out
      ∧ out.state.cells = ({ stBase with job_queue := [some jobPick] } : HandlerState).cells
      ∧ (firstFreeIdx ({ stBase with job_queue := [some jobPick] } : HandlerState).cells = none →
          out.sent = none
          ∧ out.state.last_action_status = .error
          ∧ out.pushes = [{ jobPick with status := .failed }]
          ∧ out.state.current_job = none
          ∧ out.state.current_cell = none)
      ∧ (∀ i, firstFreeIdx ({ stBase with job_queue := [some jobPick] } : HandlerState).cells = some i →
          (∃ c, ({ stBase with job_queue := [some jobPick] } : HandlerState).cells.get? i = some c
              ∧ c.holding_uuid = none)
          ∧ (∀ k c, k < i →
              ({ stBase with job_queue := [some jobPick] } : HandlerState).cells.get? k = some c →
              c.holding_uuid ≠ none)
          ∧ ∃ lvl, RobotCellLevel.ofIdx i = some lvl
              ∧ out.sent = some (jobPick, lvl)
              ∧ (send_job_raises envBad { stBase with job_queue := [some jobPick] } jobPick = true →
                  out.state.last_action_status = .error
                  ∧ out.pushes = [{ jobPick with status := .failed }]
                  ∧ out.state.current_job = none
                  ∧ out.state.current_cell = none)
              ∧ (send_job_raises envBad { stBase with job_queue := [some jobPick] } jobPick = false →
                  out.state.current_cell = some lvl
                  ∧ out.state.current_job = some { jobPick with status := .inProgress }
                  ∧ out.state.last_action_status = .operating)) :=
  trigger_pickup_allocates_first_free_cell envBad
    { stBase with job_queue := [some jobPick] } jobPick [] rfl rfl
    (by decide) (by decide)

end FleetGateway

namespace FleetGateway

/-! ## Claim C9 -/

theorem except_bind_ok {e a b : Type} (x : a) (f : a → Except e b) :
    (Except.ok x : Except e a) >>= f = f x := rfl

theorem modifyHolding_length (cs : List RobotCell) (k u : Nat) :
    (modifyHolding cs k u).length = cs.length := by
  induction cs generalizing k with
  | nil => rfl
  | cons c cs ih => cases k <;> simp [modifyHolding, ih]

theorem modifyHolding_get? (cs : List RobotCell) (k u i : Nat) :
    (modifyHolding cs k u).get? i =
      if i = k then (cs.get? i).map (fun c => { c with holding_uuid := some u })
      else cs.get? i := by
  induction cs generalizing k i with
  | nil => simp [modifyHolding]
  | cons c cs ih =>
    cases k with
    | zero =>
      cases i with
      | zero => simp [modifyHolding]
      | succ i' => simp [modifyHolding]
    | succ k' =>
      cases i with
      | zero => simp [modifyHolding]
      | succ i' => simpa [modifyHolding] using ih k' i'

theorem apply_status_terminal (st : HandlerState) (status : OrderStatus)
    (j : Job) (lvl : RobotCellLevel) (k : Nat)
    (hcj : st.current_job = some j) (hcc : st.current_cell = some lvl)
    (hk : pyIndex lvl.val st.cells.length = some k)
    (hterm : status.isTerminal = true) :
    apply_status st status = .ok
      ({ st with
         current_job := none, current_cell := none,
         cells := if status = .completed ∧ j.operation = .pickup
                  then modifyHolding st.cells k j.uuid
                  else st.cells },
       [{ j with status := status }], true) := by
  by_cases hwc : status = .completed ∧ j.operation = .pickup
  · obtain ⟨hs, hoperation⟩ := hwc
    subst hs
    simp [apply_status, hcj, hcc, hk, hoperation, OrderStatus.isTerminal]
    rfl
  · simp [apply_status, hcj, hterm, hcc, hk, hwc]
    rfl

/-- C9: on a terminal transition of `update_job_status`, the handler
writes `cells[current_cell].holding_uuid = job uuid` exactly when the
finished job is a PICKUP completing with COMPLETED; every other terminal
transition leaves the cells array unchanged; no cell holding is ever
cleared by the transition (a held cell is freed only by the explicit
`FleetHandler.free_cell`, whose effect the last conjunct states). -/
theorem update_job_status_terminal_cells (env : SendEnv)
    (st : HandlerState) (status : OrderStatus) (j : Job)
    (lvl : RobotCellLevel) (k : Nat)
    (hcj : st.current_job = some j) (hcc : st.current_cell = some lvl)
    (hk : pyIndex lvl.val st.cells.length = some k)
    (hterm : status.isTerminal = true)
    (hq : headOk st.job_queue) (h10 : st.cells.length ≤ 10) :
    ∃ out, update_job_status env st status = .ok out
      ∧ (status = .completed ∧ j.operation = .pickup →
          out.state.cells = modifyHolding st.cells k j.uuid)
      ∧ (¬(status = .completed ∧ j.operation = .pickup) →
          out.state.cells = st.cells)
      ∧ (∀ i c, st.cells.get? i = some c → c.holding_uuid ≠ none →
          ∃ c', out.state.cells.get? i = some c' ∧ c'.holding_uuid ≠ none)
      ∧ out.pushes.head? = some { j with status := status }
      ∧ (∀ f name idx h c, get_handler f name = some h →
          h.cells.get? idx = some c →
          get_handler (free_cell f name (idx : Int)).1 name
            = some { h with
                     cells := h.cells.set idx { c with holding_uuid := none } }
          ∧ (free_cell f name (idx : Int)).2
            = some { c with holding_uuid := none }) := by
  have happ := apply_status_terminal st status j lvl k hcj hcc hk hterm
  have hq' : headOk (({ st with
      current_job := none, current_cell := none,
      cells := if status = .completed ∧ j.operation = .pickup
               then modifyHolding st.cells k j.uuid
               else st.cells } : HandlerState)).job_queue := hq
  have h10' : (({ st with
      current_job := none, current_cell := none,
      cells := if status = .completed ∧ j.operation = .pickup
               then modifyHolding st.cells k j.uuid
               else st.cells } : HandlerState)).cells.length ≤ 10 := by
    by_cases hwc : status = .completed ∧ j.operation = .pickup
    · simp [hwc, modifyHolding_length, h10]
    · simp [hwc, h10]
  obtain ⟨tr, htr, hcells, _, _, _, _⟩ := trigger_run env _ hq' h10'
  have hupd : update_job_status env st status
      = .ok ⟨tr.state, tr.sent, [{ j with status := status }] ++ tr.pushes⟩ := by
    simp [update_job_status, happ, htr, except_bind_ok]
  refine ⟨⟨tr.state, tr.sent, [{ j with status := status }] ++ tr.pushes⟩,
    hupd, ?_, ?_, ?_, by simp, ?_⟩
  · intro hwc
    rw [hcells]
    simp [hwc]
  · intro hwc
    rw [hcells]
    simp [hwc]
  · intro i c hgc hhold
    by_cases hwc : status = .completed ∧ j.operation = .pickup
    · have hmc : tr.state.cells = modifyHolding st.cells k j.uuid := by
        rw [hcells]; simp [hwc]
      by_cases hik : i = k
      · subst hik
        refine ⟨{ c with holding_uuid := some j.uuid }, ?_, by simp⟩
        rw [hmc, modifyHolding_get?, if_pos rfl, hgc]
        rfl
      · refine ⟨c, ?_, hhold⟩
        rw [hmc, modifyHolding_get?, if_neg hik]
        exact hgc
    · have hmc : tr.state.cells = st.cells := by rw [hcells]; simp [hwc]
      refine ⟨c, ?_, hhold⟩
      rw [hmc]
      exact hgc
  · intro f name idx h c hget hcell
    have hlt : idx < h.cells.length := by
      by_contra hge
      rw [List.get?_eq_none.mpr (by omega)] at hcell
      exact Option.noConfusion hcell
    have hcond : ¬((idx : Int) < 0 ∨ (h.cells.length : Int) ≤ (idx : Int)) := by
      push_neg
      constructor
      · omega
      · exact_mod_cast hlt
    have htn : ((idx : Int)).toNat = idx := by omega
    have hget' : alGet f.handlers name = some h := hget
    constructor
    · simp only [get_handler, free_cell, hget', if_neg hcond, htn, hcell,
        set_handler]
      rw [alGet_alSet]
      simp
    · simp only [free_cell, hget, if_neg hcond, htn, hcell]

end FleetGateway

namespace FleetGateway

/-- C9 witness: completing the in-flight PICKUP on `stOperating` writes
its uuid into cell 0 and frees nothing; `free_cell` on the resulting
cell clears it. -/
theorem update_job_status_terminal_cells_witness :
    ∃ out, update_job_status envBad stOperating .completed = .ok out
      ∧ (OrderStatus.completed = .completed
          ∧ ({ jobPick with status := .inProgress } : Job).operation = .pickup →
          out.state.cells
            = modifyHolding stOperating.cells 0
                ({ jobPick with status := .inProgress } : Job).uuid)
      ∧ (¬(OrderStatus.completed = .completed
            ∧ ({ jobPick with status := .inProgress } : Job).operation = .pickup) →
          out.state.cells = stOperating.cells)
      ∧ (∀ i c, stOperating.cells.get? i = some c → c.holding_uuid ≠ none →
          ∃ c', out.state.cells.get? i = some c' ∧ c'.holding_uuid ≠ none)
      ∧ out.pushes.head?
          = some { ({ jobPick with status := .inProgress } : Job) with
                   status := .completed }
      ∧ (∀ f name idx h c, get_handler f name = some h →
          h.cells.get? idx = some c →
          get_handler (free_cell f name (idx : Int)).1 name
            = some { h with
                     cells := h.cells.set idx { c with holding_uuid := none } }
          ∧ (free_cell f name (idx : Int)).2
            = some { c with holding_uuid := none }) :=
  update_job_status_terminal_cells envBad stOperating .completed
    { jobPick with status := .inProgress } (.cellLevel 0) 0
    rfl rfl (by decide) (by decide) (Or.inl rfl) (by decide)

end FleetGateway

namespace FleetGateway

/-! ## Claim C8 -/

/-- C8: `cancel_job_order(uuid)` returns `None` for an unknown id;
returns a terminal job unchanged with no writes; for a non-terminal job
it removes the job from its robot's waiting queue (via
`remove_queued_job`), sets status CANCELED, persists it and returns it;
and in every case it leaves every robot's `current_job` untouched. -/
theorem cancel_job_order_spec (ctrl : CtrlState) (u : Nat) :
    (get_job ctrl.store u = none → cancel_job_order ctrl u = .ok (ctrl, none))
    ∧ (∀ j, get_job ctrl.store u = some j → j.status.isTerminal = true →
        cancel_job_order ctrl u = .ok (ctrl, some j))
    ∧ (∀ j h, get_job ctrl.store u = some j → j.status.isTerminal = false →
        get_handler ctrl.fleet j.handling_robot_name = some h →
        ∀ b q', remove_first_by_uuid h.job_queue u = .ok (b, q') →
        cancel_job_order ctrl u = .ok
          ({ ctrl with
             fleet := set_handler ctrl.fleet j.handling_robot_name
               { h with job_queue := q' },
             store := (set_job ctrl.store { j with status := .canceled }).1 },
           some { j with status := .canceled }))
    ∧ (∀ j, get_job ctrl.store u = some j → j.status.isTerminal = false →
        get_handler ctrl.fleet j.handling_robot_name = none →
        cancel_job_order ctrl u = .ok
          ({ ctrl with
             store := (set_job ctrl.store { j with status := .canceled }).1 },
           some { j with status := .canceled }))
    ∧ (∀ ctrl' jr, cancel_job_order ctrl u = .ok (ctrl', jr) →
        ∀ name, (get_handler ctrl'.fleet name).map HandlerState.current_job
          = (get_handler ctrl.fleet name).map HandlerState.current_job) := by
  refine ⟨?_, ?_, ?_, ?_, ?_⟩
  · intro hgj
    simp [cancel_job_order, hgj]
  · intro j hgj hterm
    simp [cancel_job_order, hgj, hterm]
  · intro j h hgj hterm hh b q' hrm
    simp [cancel_job_order, hgj, hterm, remove_queued_job, hh, hrm,
      except_bind_ok, set_job]
  · intro j hgj hterm hh
    simp [cancel_job_order, hgj, hterm, remove_queued_job, hh,
      except_bind_ok, set_job]
  · intro ctrl' jr hcanc name
    cases hgj : get_job ctrl.store u with
    | none =>
      rw [show cancel_job_order ctrl u = .ok (ctrl, none) by
        simp [cancel_job_order, hgj]] at hcanc
      injection hcanc with hcanc
      injection hcanc with h1 h2
      rw [← h1]
    | some j =>
      cases hterm : j.status.isTerminal with
      | true =>
        rw [show cancel_job_order ctrl u = .ok (ctrl, some j) by
          simp [cancel_job_order, hgj, hterm]] at hcanc
        injection hcanc with hcanc
        injection hcanc with h1 h2
        rw [← h1]
      | false =>
        cases hh : get_handler ctrl.fleet j.handling_robot_name with
        | none =>
          rw [show cancel_job_order ctrl u = .ok
              ({ ctrl with
                 store := (set_job ctrl.store { j with status := .canceled }).1 },
               some { j with status := .canceled }) by
            simp [cancel_job_order, hgj, hterm, remove_queued_job, hh,
              except_bind_ok, set_job]] at hcanc
          injection hcanc with hcanc
          injection hcanc with h1 h2
          rw [← h1]
        | some h =>
          cases hrm : remove_first_by_uuid h.job_queue u with
          | error e =>
            rw [show cancel_job_order ctrl u = .error e by
              simp [cancel_job_order, hgj, hterm, remove_queued_job, hh, hrm]
              rfl] at hcanc
            exact Except.noConfusion hcanc
          | ok bq =>
            obtain ⟨b, q'⟩ := bq
            rw [show cancel_job_order ctrl u = .ok
                ({ ctrl with
                   fleet := set_handler ctrl.fleet j.handling_robot_name
                     { h with job_queue := q' },
                   store := (set_job ctrl.store { j with status := .canceled }).1 },
                 some { j with status := .canceled }) by
              simp [cancel_job_order, hgj, hterm, remove_queued_job, hh, hrm,
                except_bind_ok, set_job]] at hcanc
            injection hcanc with hcanc
            injection hcanc with h1 h2
            rw [← h1]
            show (alGet (alSet ctrl.fleet.handlers j.handling_robot_name
                { h with job_queue := q' }) name).map HandlerState.current_job
              = (alGet ctrl.fleet.handlers name).map HandlerState.current_job
            rw [alGet_alSet]
            by_cases hn : name = j.handling_robot_name
            · rw [if_pos hn, hn]
              have hh' : alGet ctrl.fleet.handlers j.handling_robot_name
                = some h := hh
              rw [hh']
              rfl
            · rw [if_neg hn]

/-- C8 witness: cancelling the stored queuing job `jobQ` removes it from
R1's waiting queue, persists it CANCELED, returns it, and leaves R1's
current job alone. -/
theorem cancel_job_order_spec_witness :
    cancel_job_order ctrlC8 50 = .ok
      ({ ctrlC8 with
         fleet := set_handler ctrlC8.fleet jobQ.handling_robot_name
           { ({ hOffline with
                job_queue := [some jobQ],
                current_job := some jobDel } : HandlerState) with job_queue := [] },
         store := (set_job ctrlC8.store { jobQ with status := .canceled }).1 },
       some { jobQ with status := .canceled })
    ∧ (∀ ctrl' jr, cancel_job_order ctrlC8 50 = .ok (ctrl', jr) →
        ∀ name, (get_handler ctrl'.fleet name).map HandlerState.current_job
          = (get_handler ctrlC8.fleet name).map HandlerState.current_job) := by
  have h := cancel_job_order_spec ctrlC8 50
  refine ⟨?_, h.2.2.2.2⟩
  exact h.2.2.1 jobQ
    ({ hOffline with job_queue := [some jobQ], current_job := some jobDel })
    (by decide) (by decide) rfl true [] (by decide)

end FleetGateway

namespace FleetGateway

/-! ## Claim C5 -/

theorem alGet_foldl_alSet {K V : Type} [DecidableEq K] (keys : List K)
    (r : V) (acc : List (K × V)) (k : K) :
    alGet (keys.foldl (fun m k' => alSet m k' r) acc) k
      = if k ∈ keys then some r else alGet acc k := by
  induction keys generalizing acc with
  | nil => simp
  | cons k0 rest ih =>
    simp only [List.foldl_cons]
    rw [ih]
    by_cases hk : k ∈ rest
    · simp [hk]
    · by_cases hk0 : k = k0
      · subst hk0
        simp [hk, alGet_alSet]
      · simp [hk, hk0, alGet_alSet]

theorem node_to_robot_aux_last (f : FleetState) (acc : List (NodeKey × String))
    (l : List AssignmentInput) (m : List (NodeKey × String))
    (h : node_to_robot_aux f acc l = .ok m) (k : NodeKey) :
    alGet m k = match lastRobotFor l k with
                | some r => some r
                | none => alGet acc k := by
  induction l generalizing acc with
  | nil =>
    simp only [node_to_robot_aux] at h
    injection h with h
    subst h
    simp [lastRobotFor]
  | cons a rest ih =>
    simp only [node_to_robot_aux] at h
    by_cases h1 : (get_handler f a.robot_name).isNone
    · rw [if_pos h1] at h
      exact Except.noConfusion h
    · rw [if_neg h1] at h
      by_cases h2 : a.route_node_ids.isNone ∧ a.route_node_aliases.isNone
      · rw [if_pos h2] at h
        exact Except.noConfusion h
      · rw [if_neg h2] at h
        by_cases h3 : a.route_node_ids.isSome ∧ a.route_node_aliases.isSome
        · rw [if_pos h3] at h
          exact Except.noConfusion h
        · rw [if_neg h3] at h
          cases hro : route_or a.route_node_ids a.route_node_aliases with
          | error e =>
            rw [hro] at h
            exact Except.noConfusion h
          | ok keys =>
            rw [hro] at h
            simp only [except_bind_ok] at h
            have hkeys : routeKeysD a = keys := by
              simp [routeKeysD, hro, Except.toOption]
            have := ih _ h
            rw [this]
            simp only [lastRobotFor, hkeys]
            cases hlast : lastRobotFor rest k with
            | some r => rfl
            | none =>
              rw [alGet_foldl_alSet]
              by_cases hmem : k ∈ keys
              · simp [hmem]
              · simp [hmem]

/-- C5 (amended): `create_node_to_robot_dict` does not fail when a node
appears in the routes of two different assignments — whenever it
succeeds, it maps every node key to the robot of the *last* assignment
whose route contains that node (later assignments silently overwrite
earlier ones), and `accept_warehouse_order` proceeds on such input. -/
theorem create_node_to_robot_dict_last_wins (f : FleetState)
    (assignments : List AssignmentInput) (m : List (NodeKey × String))
    (h : create_node_to_robot_dict f assignments = .ok m) (k : NodeKey) :
    alGet m k = lastRobotFor assignments k := by
  have := node_to_robot_aux_last f [] assignments m h k
  rw [this]
  cases lastRobotFor assignments k with
  | none => simp [alGet]
  | some r => rfl

/-- C5 counterexample: in `woDup`, node 7 is in R1's route and in R2's
route, yet `accept_warehouse_order` does not reject the order: the
node-to-robot map is built (7 mapped to the later robot R2), the run
succeeds, and two jobs plus one request are created and stored. -/
theorem warehouse_order_duplicate_node_not_rejected :
    (woDup.assignments.map (fun a => (a.robot_name, routeKeysD a)))
        = [("R1", [.nid 7]), ("R2", [.nid 7, .nid 10])]
    ∧ (create_node_to_robot_dict fleetR12 woDup.assignments).toOption.map
        (fun m => alGet m (.nid 7)) = some (some "R2")
    ∧ (accept_warehouse_order genvWH (ctrl0 fleetR12) woDup).toOption.map
        (fun o => (o.result.success,
                   o.ctrl.store.jobs.length,
                   o.ctrl.store.requests.length))
        = some (true, 2, 1) := by
  refine ⟨by decide, by decide, by decide⟩

/-- C5 witness: the last-wins law evaluated on `woDup`'s assignments —
node 7 resolves to R2, the robot of the later assignment. -/
theorem create_node_to_robot_dict_last_wins_witness :
    ∃ m, create_node_to_robot_dict fleetR12 woDup.assignments = .ok m
      ∧ alGet m (.nid 7) = lastRobotFor woDup.assignments (.nid 7)
      ∧ lastRobotFor woDup.assignments (.nid 7) = some "R2" := by
  refine ⟨[(.nid 7, "R2"), (.nid 10, "R2")], by decide, ?_, by decide⟩
  exact create_node_to_robot_dict_last_wins fleetR12 woDup.assignments
    [(.nid 7, "R2"), (.nid 10, "R2")] (by decide) (.nid 7)

end FleetGateway

namespace FleetGateway

/-! ## Claim C6 -/

theorem except_bind_error {e a b : Type} (err : e) (f : a → Except e b) :
    (Except.error err : Except e a) >>= f = .error err := rfl

theorem assign_slots_log (env : SendEnv) (fleet : FleetState) (r : String)
    (slots : List (Option Job)) (f' : FleetState)
    (lg : List (String × Option Job)) (p : List Job)
    (h : assign_slots env fleet r slots = .ok (f', lg, p)) :
    lg = slots.map (fun s => (r, s)) := by
  induction slots generalizing fleet f' lg p with
  | nil =>
    simp only [assign_slots] at h
    injection h with h
    obtain ⟨h1, h2, h3⟩ : fleet = f' ∧ [] = lg ∧ [] = p := by simpa using h
    simp [← h2]
  | cons s ss ih =>
    simp only [assign_slots] at h
    cases ha : assign_job env fleet r s with
    | error e =>
      rw [ha, except_bind_error] at h
      exact Except.noConfusion h
    | ok fp =>
      obtain ⟨f1, p1⟩ := fp
      rw [ha, except_bind_ok] at h
      cases hrest : assign_slots env f1 r ss with
      | error e =>
        rw [hrest, except_bind_error] at h
        exact Except.noConfusion h
      | ok t3 =>
        obtain ⟨f2, lg2, p2⟩ := t3
        rw [hrest, except_bind_ok] at h
        injection h with h
        obtain ⟨h1, h2, h3⟩ : f2 = f' ∧ (r, s) :: lg2 = lg ∧ p1 ++ p2 = p := by
          simpa using h
        rw [← h2, ih f1 f2 lg2 p2 hrest]
        rfl

theorem assign_routes_log (env : SendEnv) (fleet : FleetState)
    (routes : List (String × List (Option Job))) (f' : FleetState)
    (lg : List (String × Option Job)) (p : List Job)
    (h : assign_routes env fleet routes = .ok (f', lg, p)) :
    lg = (routes.map (fun pr => pr.2.map (fun s => (pr.1, s)))).join := by
  induction routes generalizing fleet f' lg p with
  | nil =>
    simp only [assign_routes] at h
    injection h with h
    obtain ⟨h1, h2, h3⟩ : fleet = f' ∧ [] = lg ∧ [] = p := by simpa using h
    simp [← h2]
  | cons pr rest ih =>
    obtain ⟨r, slots⟩ := pr
    simp only [assign_routes] at h
    cases ha : assign_slots env fleet r slots with
    | error e =>
      rw [ha, except_bind_error] at h
      exact Except.noConfusion h
    | ok t1 =>
      obtain ⟨f1, lg1, p1⟩ := t1
      rw [ha, except_bind_ok] at h
      cases hrest : assign_routes env f1 rest with
      | error e =>
        rw [hrest, except_bind_error] at h
        exact Except.noConfusion h
      | ok t2 =>
        obtain ⟨f2, lg2, p2⟩ := t2
        rw [hrest, except_bind_ok] at h
        injection h with h
        obtain ⟨h1, h2, h3⟩ : f2 = f' ∧ lg1 ++ lg2 = lg ∧ p1 ++ p2 = p := by
          simpa using h
        rw [← h2, assign_slots_log env fleet r slots f1 lg1 p1 ha,
            ih f1 f2 lg2 p2 hrest]
        simp

theorem map_pair_filterMap (r : String) (slots : List (Option Job)) :
    (slots.map (fun s => (r, s))).filterMap
        (fun q => q.2.map (fun j => (q.1, j)))
      = (slots.filterMap id).map (fun j => (r, j)) := by
  induction slots with
  | nil => rfl
  | cons s ss ih => cases s <;> simp [ih]

theorem filterMap_join {α β : Type} (f : α → Option β) (L : List (List α)) :
    (L.join).filterMap f = (L.map (List.filterMap f)).join := by
  induction L with
  | nil => rfl
  | cons l ls ih => simp [List.join, List.filterMap_append, ih]

/-- C6 (amended): after all requests of a successful warehouse order are
placed, each robot's `robot_job_route` is passed to `assign_job` slot by
slot in route order *including* the empty (`None`) slots — unclaimed
route slots are not skipped but appended as `None` — and consequently
the subsequence of non-empty calls is exactly the claimed jobs in route
order. -/
theorem accept_warehouse_order_passes_all_slots (genv : OracleEnv)
    (ctrl : CtrlState) (wo : WarehouseOrderInput) (out : WOOut)
    (h : accept_warehouse_order genv ctrl wo = .ok out)
    (hs : out.result.success = true) :
    out.assignLog
      = (out.jobRoutes.map (fun pr => pr.2.map (fun s => (pr.1, s)))).join
    ∧ out.assignLog.filterMap (fun q => q.2.map (fun j => (q.1, j)))
      = (out.jobRoutes.map
          (fun pr => (pr.2.filterMap id).map (fun j => (pr.1, j)))).join := by
  have hmain : out.assignLog
      = (out.jobRoutes.map (fun pr => pr.2.map (fun s => (pr.1, s)))).join := by
    simp only [accept_warehouse_order] at h
    by_cases h1 : wo.request_ids.isNone ∧ wo.request_aliases.isNone
    · rw [if_pos h1] at h
      injection h with h
      rw [← h] at hs
      exact Bool.noConfusion hs
    · rw [if_neg h1] at h
      by_cases h2 : wo.request_ids.isSome ∧ wo.request_aliases.isSome
      · rw [if_pos h2] at h
        injection h with h
        rw [← h] at hs
        exact Bool.noConfusion hs
      · rw [if_neg h2] at h
        cases hn : create_node_to_robot_dict ctrl.fleet wo.assignments with
        | error e => rw [hn, except_bind_error] at h; exact Except.noConfusion h
        | ok n2r =>
        rw [hn, except_bind_ok] at h
        cases hi : create_robot_to_node_incides wo.assignments with
        | error e => rw [hi, except_bind_error] at h; exact Except.noConfusion h
        | ok indices =>
        rw [hi, except_bind_ok] at h
        cases hr0 : init_job_routes wo.assignments with
        | error e => rw [hr0, except_bind_error] at h; exact Except.noConfusion h
        | ok routes0 =>
        rw [hr0, except_bind_ok] at h
        cases hreq : requests_iter wo with
        | error e => rw [hreq, except_bind_error] at h; exact Except.noConfusion h
        | ok reqs =>
        rw [hreq, except_bind_ok] at h
        cases hpr : place_requests genv ctrl n2r indices routes0 [] reqs with
        | error e => rw [hpr, except_bind_error] at h; exact Except.noConfusion h
        | ok pres =>
        rw [hpr, except_bind_ok] at h
        cases pres with
        | mismatch c1 r1 =>
          dsimp only at h
          injection h with h
          rw [← h] at hs
          exact Bool.noConfusion hs
        | done c1 r1 reqs1 =>
          dsimp only at h
          cases har : assign_routes genv.sendEnv c1.fleet r1 with
          | error e =>
            rw [har, except_bind_error] at h
            exact Except.noConfusion h
          | ok t3 =>
            obtain ⟨f2, lg, p⟩ := t3
            rw [har, except_bind_ok] at h
            injection h with h
            rw [← h]
            exact assign_routes_log genv.sendEnv c1.fleet r1 f2 lg p har
  refine ⟨hmain, ?_⟩
  rw [hmain, filterMap_join, List.map_map]
  have hfun : (List.filterMap (fun q : String × Option Job =>
        q.2.map (fun j => (q.1, j))))
        ∘ (fun pr : String × List (Option Job) =>
            pr.2.map (fun s => (pr.1, s)))
      = fun pr => (pr.2.filterMap id).map (fun j => (pr.1, j)) := by
    funext pr
    exact map_pair_filterMap pr.1 pr.2
  rw [hfun]

/-- C6 counterexample: running `woSkip` (route [5, 7, 10, 12], one
request claiming 7 and 10) calls `assign_job` four times — including
with `None` for the unclaimed slots 5 and 12 — and both `None` entries
end up in R1's job queue, contradicting "non-empty slots only" and
"never appear in any robot's job queue". -/
theorem warehouse_order_empty_slots_not_skipped :
    (accept_warehouse_order genvWH (ctrl0 fleetR1) woSkip).toOption.map
      (fun o => (o.result.success,
                 o.assignLog.map (fun q => (q.1, q.2.map Job.uuid)),
                 (get_handler o.ctrl.fleet "R1").map
                   (fun hh => hh.job_queue.map (Option.map Job.uuid))))
      = some (true,
              [("R1", none), ("R1", some 1), ("R1", some 2), ("R1", none)],
              some [none, some 1, some 2, none]) := by decide

/-- C6 witness: the amended law instantiated on the `woSkip` run. -/
theorem accept_warehouse_order_passes_all_slots_witness :
    ∃ out, accept_warehouse_order genvWH (ctrl0 fleetR1) woSkip = .ok out
      ∧ out.result.success = true
      ∧ (out.assignLog
          = (out.jobRoutes.map (fun pr => pr.2.map (fun s => (pr.1, s)))).join
        ∧ out.assignLog.filterMap (fun q => q.2.map (fun j => (q.1, j)))
          = (out.jobRoutes.map
              (fun pr => (pr.2.filterMap id).map (fun j => (pr.1, j)))).join) := by
  cases hrun : accept_warehouse_order genvWH (ctrl0 fleetR1) woSkip with
  | error e =>
    have : (accept_warehouse_order genvWH (ctrl0 fleetR1) woSkip).toOption
        = none := by rw [hrun]; rfl
    have hcontra : (accept_warehouse_order genvWH (ctrl0 fleetR1)
        woSkip).toOption.isSome = true := by decide
    rw [this] at hcontra
    exact Bool.noConfusion hcontra
  | ok out =>
    have hsucc : out.result.success = true := by
      have hd : (accept_warehouse_order genvWH (ctrl0 fleetR1)
          woSkip).toOption.map (fun o => o.result.success) = some true := by
        decide
      rw [hrun] at hd
      dsimp only [Except.toOption, Option.map] at hd
      injection hd with hd
    exact ⟨out, rfl, hsucc,
      accept_warehouse_order_passes_all_slots genvWH (ctrl0 fleetR1) woSkip
        out hrun hsucc⟩

end FleetGateway
